import Mathlib

/-!
Shallow embedding of the Airline-bot dialogue workflow orchestrator
(`src/backend/workflow.py`) together with the collaborators it drives:
the mock booking backend (`src/backend/airline_api.py`), the TTL cache
(`src/backend/cache.py`), the recommendation engine
(`src/backend/recommendations.py`) and the seeded policy table
(`src/backend/database.py`).

Modelling conventions:
* Python strings are Lean `String`s; `pat in s` is `containsSub s pat`;
  Python truthiness of optional strings is `truthy`.
* The SQLite `workflow_states` table is a `List WorkflowRow`; the SQLite
  `bookings` table is a `List Booking`; the in-memory TTL cache is an
  association list keyed by the cache key string.
* `CURRENT_TIMESTAMP` and `time.time()` are a single strictly monotone
  `Nat` clock `St.now`, ticked on every database write, so
  `ORDER BY updated_at DESC LIMIT 1` has no ties; `uuid.uuid4()` is a
  counter-backed fresh-name supply.
* Functions that can raise in Python (the missing
  `process_cancellation_policy` attribute, `int('')` in the seat-upgrade
  recommender) return `Option`, with `none` for abnormal termination;
  `process_message`'s self-recursion is fuel-indexed and `none` also
  reports fuel exhaustion.
* Embedding-based NLU reclassification and `random`-dependent values
  (refund amount, upgrade cost, sampled service recommendations) are
  parameters of `Env`.
-/

namespace AirlineBot

/-- `pat` occurs as a contiguous sublist of `l`. -/
def infixOfList (pat : List Char) : List Char → Bool
  | [] => pat == []
  | c :: t => pat.isPrefixOf (c :: t) || infixOfList pat t

/-- Python `pat in s` substring test. -/
def containsSub (s pat : String) : Bool :=
  infixOfList pat.toList s.toList

/-- Python `any(w in s for w in words)`. -/
def anyIn (words : List String) (s : String) : Bool :=
  words.any (fun w => containsSub s w)

/-- Python truthiness of an optional string (`None` and `""` are falsy). -/
def truthy : Option String → Bool
  | none => false
  | some s => s ≠ ""

/-- Python `a or b` on optional strings. -/
def pyOr (a b : Option String) : Option String :=
  if truthy a then a else b

/-- Characters Python's `str.strip()` removes (ASCII whitespace). -/
def pyIsSpaceChar (c : Char) : Bool :=
  c == ' ' || c == '\t' || c == '\n' || c == '\r' || c == '\x0b' || c == '\x0c'

/-- Python `s.strip()`. -/
def pyStrip (s : String) : String :=
  String.mk (((s.toList.dropWhile pyIsSpaceChar).reverse.dropWhile pyIsSpaceChar).reverse)

/-- ASCII letter, the `[A-Za-z]` character class. -/
def isAsciiLetter (c : Char) : Bool :=
  ('A' ≤ c && c ≤ 'Z') || ('a' ≤ c && c ≤ 'z')

/-- Python `any(char.isdigit() for char in s)`. -/
def hasDigit (s : String) : Bool :=
  s.toList.any Char.isDigit

/-- Decimal digits of a string as a number (the caller checks `isDigits`). -/
def digitsToNat (s : String) : Nat :=
  s.toList.foldl (fun acc c => acc * 10 + (c.toNat - 48)) 0

/-- Nonempty all-decimal-digit string, the domain on which `int(s)` is modelled. -/
def isDigits (s : String) : Bool :=
  s.length > 0 && s.toList.all Char.isDigit

/-- Python `s.lower()` (ASCII; kernel-reducible, unlike `String.toLower`). -/
def lowerStr (s : String) : String := String.mk (s.toList.map Char.toLower)

/-- Python `s.upper()` (ASCII). -/
def upperStr (s : String) : String := String.mk (s.toList.map Char.toUpper)

/-- Python `s.split(sep)` for a one-character separator (empty parts kept). -/
def splitChar (sep : Char) : List Char → List (List Char)
  | [] => [[]]
  | c :: t =>
    match splitChar sep t with
    | [] => [[]]
    | h :: r => if c == sep then [] :: h :: r else (c :: h) :: r

/-- Python `s.split(sep)` as strings. -/
def pySplit (sep : Char) (s : String) : List String :=
  (splitChar sep s.toList).map String.mk

/-- Python `s.replace(old, new)` for one-character `old` and `new`. -/
def replaceChar (old new : Char) (s : String) : String :=
  String.mk (s.toList.map (fun c => if c == old then new else c))

/-- Lexicographic order on code points, SQLite's `<` on the ASCII dates here. -/
def lexLt : List Char → List Char → Bool
  | [], [] => false
  | [], _ :: _ => true
  | _ :: _, [] => false
  | a :: as, b :: bs => a < b || (a == b && lexLt as bs)

/-- Gregorian leap-year rule, as written in `validate_date`. -/
def isLeapYear (y : Nat) : Bool :=
  (y % 4 == 0 && y % 100 != 0) || y % 400 == 0

/-- Days before month `m` (1-12) in a non-leap year. -/
def daysBeforeMonth (m : Nat) : Nat :=
  [0, 0, 31, 59, 90, 120, 151, 181, 212, 243, 273, 304, 334].getD m 334

/-- Real length of month `m` of year `y` (Feb is 28 or 29 by the leap rule). -/
def realDaysInMonth (y m : Nat) : Nat :=
  if m == 2 then (if isLeapYear y then 29 else 28)
  else [31, 31, 28, 31, 30, 31, 30, 31, 31, 30, 31, 30, 31].getD m 31

/-- Day number of a calendar date, 1 = 0001-01-01; strictly monotone in the
calendar order, so Python's `date` comparisons become `Nat` comparisons. -/
def toDayNumber (y m d : Nat) : Nat :=
  365 * (y - 1) + (y - 1) / 4 - (y - 1) / 100 + (y - 1) / 400
    + daysBeforeMonth m + (if 2 < m && isLeapYear y then 1 else 0) + d

/-- Day number of the first day of year `y`. -/
def yearStart (y : Nat) : Nat := toDayNumber y 1 1

/-- One correction step for the year estimate of `fromDayNumber`. -/
def fixYear (n y : Nat) : Nat :=
  if n < yearStart y then y - 1 else if yearStart (y + 1) ≤ n then y + 1 else y

/-- Calendar date of a day number (inverse of `toDayNumber`, used only to
render `today + timedelta(days=365)` in a message). -/
def fromDayNumber (n : Nat) : Nat × Nat × Nat :=
  let y := fixYear n (fixYear n (n * 400 / 146097 + 1))
  let doy := n - yearStart y + 1
  let leapAdj := fun mm => daysBeforeMonth mm + (if 2 < mm && isLeapYear y then 1 else 0)
  let m := (List.range 12).foldl
    (fun acc i => if leapAdj (i + 1) < doy then i + 1 else acc) 1
  (y, m, doy - leapAdj m)

/-- Zero-padded two-digit rendering. -/
def pad2 (n : Nat) : String :=
  if n < 10 then "0" ++ toString n else toString n

/-- Zero-padded four-digit rendering. -/
def pad4 (n : Nat) : String :=
  if n < 10 then "000" ++ toString n
  else if n < 100 then "00" ++ toString n
  else if n < 1000 then "0" ++ toString n
  else toString n

/-- `strftime('%Y-%m-%d')` on a `(year, month, day)` triple. -/
def formatDate : Nat × Nat × Nat → String
  | (y, m, d) => pad4 y ++ "-" ++ pad2 m ++ "-" ++ pad2 d

/-- Day number of a `(year, month, day)` triple. -/
def dayNum : Nat × Nat × Nat → Nat
  | (y, m, d) => toDayNumber y m d

/-- Models `datetime.strptime(s, '%Y-%m-%d')` on the dash-separated decimal
strings this system sees: three all-digit fields (year ≤ 4 digits, month and
day ≤ 2) that form a real calendar date. -/
def parseDateYMD (s : String) : Option (Nat × Nat × Nat) :=
  match pySplit '-' s with
  | [ys, ms, ds] =>
    if isDigits ys && ys.length ≤ 4 && isDigits ms && ms.length ≤ 2
        && isDigits ds && ds.length ≤ 2 then
      let y := digitsToNat ys
      let m := digitsToNat ms
      let d := digitsToNat ds
      if 1 ≤ y && 1 ≤ m && m ≤ 12 && 1 ≤ d && d ≤ realDaysInMonth y m then
        some (y, m, d)
      else none
    else none
  | _ => none

/-- The `days_in_month` table of `validate_date` (note: Feb is 29 there). -/
def tableDaysInMonth (m : Nat) : Nat :=
  [31, 31, 29, 31, 30, 31, 30, 31, 31, 30, 31, 30, 31].getD m 31

/-- The `month_names` list of `validate_date`. -/
def monthName (m : Nat) : String :=
  ["", "Jan", "Feb", "Mar", "Apr", "May", "Jun",
   "Jul", "Aug", "Sep", "Oct", "Nov", "Dec"].getD m ""

/-- `WorkflowEngine.validate_date`, with `dt.now().date()` as the `today`
parameter. Returns `(ok, error_message)`. -/
def validate_date (today : Nat × Nat × Nat) (date_str : String) : Bool × String :=
  match parseDateYMD date_str with
  | some ymd =>
    if dayNum ymd ≤ dayNum today then
      (false, "⚠️ The date " ++ date_str ++ " is in the past!\n\nToday is "
        ++ formatDate today ++ ". Please provide a future date.")
    else if dayNum today + 365 < dayNum ymd then
      (false, "⚠️ The date " ++ date_str ++ " is too far in the future!\n\nWe can only book flights up to "
        ++ formatDate (fromDayNumber (dayNum today + 365)) ++ ".")
    else (true, "")
  | none =>
    match pySplit '-' date_str with
    | [ys, ms, ds] =>
      if isDigits ys && isDigits ms && isDigits ds then
        let year := digitsToNat ys
        let month := digitsToNat ms
        let day := digitsToNat ds
        if year < 2025 || year > 2100 then
          (false, "⚠️ Invalid year: " ++ toString year ++ "\nUse a year between 2025-2100.")
        else if month < 1 || month > 12 then
          (false, "⚠️ Invalid month: " ++ toString month ++ "\nMonth must be 01-12.")
        else
          let max_days := tableDaysInMonth month
          if day < 1 || day > max_days then
            (false, "⚠️ Invalid day: " ++ toString day ++ " for " ++ monthName month
              ++ "\n\n" ++ monthName month ++ " has only " ++ toString max_days ++ " days!")
          else if month == 2 && day == 29 && !isLeapYear year then
            (false, "⚠️ " ++ toString year ++ " is not a leap year!\nFeb "
              ++ toString year ++ " has only 28 days.")
          else
            (false, "⚠️ Invalid date! Use YYYY-MM-DD (e.g., 2025-12-25).")
      else
        (false, "⚠️ Invalid date! Use YYYY-MM-DD (e.g., 2025-12-25).")
    | _ => (false, "⚠️ Invalid date format! Use YYYY-MM-DD (e.g., 2025-12-25).")

/-- `WorkflowEngine.validate_passenger_name`. -/
def validate_passenger_name (name : String) : Bool × String :=
  if name == "" || (pyStrip name).length == 0 then
    (false, "⚠️ Passenger name is required!")
  else
    let n := pyStrip name
    if n.length < 2 then
      (false, "⚠️ Name too short! Please provide a valid name.")
    else if n.length > 50 then
      (false, "⚠️ Name too long! Max 50 characters.")
    else if !(n.toList.all (fun c =>
        isAsciiLetter c || pyIsSpaceChar c || c == '-' || c == '\'')) then
      (false, "⚠️ Invalid name! Use only letters, spaces, hyphens, apostrophes.")
    else (true, "")

/-- `WorkflowEngine.validate_airport_code`. -/
def validate_airport_code (code : String) (field_name : String) : Bool × String :=
  if code == "" || (pyStrip code).length == 0 then
    (false, "⚠️ " ++ field_name ++ " is required!")
  else
    let c := pyStrip (upperStr code)
    if c.length < 2 || c.length > 3 then
      (false, "⚠️ Invalid " ++ lowerStr field_name ++ ": " ++ c ++ "\nUse 2-3 letter codes.")
    else if !(c.toList.all isAsciiLetter) then
      (false, "⚠️ Invalid " ++ lowerStr field_name ++ ": " ++ c ++ "\nUse only letters.")
    else (true, "")

/-- A JSON-serialisable value of the `state_data` slot map: a string, a list
of strings (`available_seats`), or Python `None`. -/
inductive Val where
  | s (v : String)
  | ls (vs : List String)
  | null
deriving Repr, DecidableEq

/-- The `state_data` dict, as an insertion-ordered association list so that
Python's key-presence (`if state_data:`) is `sd ≠ []`. -/
abbrev StateData := List (String × Val)

/-- `state_data.get(k)` (missing key gives `None`). -/
def sdGet (sd : StateData) (k : String) : Val :=
  match sd.find? (fun p => p.1 == k) with
  | some p => p.2
  | none => Val.null

/-- `state_data[k] = v` (replace in place, or append a new key). -/
def sdSet (sd : StateData) (k : String) (v : Val) : StateData :=
  if sd.any (fun p => p.1 == k) then
    sd.map (fun p => if p.1 == k then (k, v) else p)
  else sd ++ [(k, v)]

/-- Python truthiness of a `Val`. -/
def valTruthy : Val → Bool
  | .s v => v ≠ ""
  | .ls vs => vs ≠ []
  | .null => false

/-- A `Val` as an optional string (the shape every stored scalar slot has). -/
def valStr : Val → Option String
  | .s v => some v
  | _ => none

/-- `state_data.get(k)` where the caller expects a string (or `None`). -/
def sdGetStr (sd : StateData) (k : String) : Option String :=
  valStr (sdGet sd k)

/-- `state_data.get('available_seats', [])`. -/
def sdGetSeats (sd : StateData) (k : String) : List String :=
  match sdGet sd k with
  | .ls vs => vs
  | _ => []

/-- Python `str(x)` of an optional string (`str(None) = "None"`), used where
an f-string renders a possibly-missing booking id. -/
def optStr : Option String → String
  | none => "None"
  | some s => s

/-- One row of the SQLite `bookings` table. -/
structure Booking where
  booking_id : String
  user_id : String
  flight_number : String
  passenger_name : String
  departure_date : String
  origin : String
  destination : String
  seat_number : String
  status : String
deriving Repr, DecidableEq

/-- One row of the SQLite `workflow_states` table. -/
structure WorkflowRow where
  workflow_id : String
  user_id : String
  session_id : String
  workflow_type : String
  current_step : String
  state_data : StateData
  status : String
  updated_at : Nat
deriving Repr, DecidableEq

/-- The workflow dict handlers receive: the fields of a row that are ever
read downstream (`updated_at` is only used inside the store's query). -/
structure WorkflowView where
  workflow_id : String
  user_id : String
  session_id : String
  workflow_type : String
  current_step : String
  state_data : StateData
  status : String
deriving Repr, DecidableEq

/-- The dict handed to handlers for a fetched row. -/
def WorkflowRow.view (r : WorkflowRow) : WorkflowView :=
  ⟨r.workflow_id, r.user_id, r.session_id, r.workflow_type, r.current_step,
   r.state_data, r.status⟩

/-- One entry of the in-memory `SmartCache` (value plus absolute expiry). -/
structure CacheEntry where
  key : String
  expiry : Nat
  val : WorkflowView
deriving Repr, DecidableEq

/-- `SmartCache.delete`. -/
def cacheDelete (c : List CacheEntry) (key : String) : List CacheEntry :=
  c.filter (fun e => e.key ≠ key)

/-- `SmartCache.set` (dict assignment: replace or insert, fresh expiry). -/
def cacheSet (c : List CacheEntry) (key : String) (expiry : Nat)
    (v : WorkflowView) : List CacheEntry :=
  cacheDelete c key ++ [⟨key, expiry, v⟩]

/-- `SmartCache.get`: the value if present and unexpired; an expired entry is
deleted on access (lazy expiry). -/
def cacheGet (c : List CacheEntry) (now : Nat) (key : String) :
    Option WorkflowView × List CacheEntry :=
  match c.find? (fun e => e.key == key) with
  | none => (none, c)
  | some e => if now > e.expiry then (none, cacheDelete c key) else (some e.val, c)

/-- Result dict of the mock backend's cancel/change/upgrade operations. -/
structure ApiResult where
  success : Bool
  message : String
  refund_amount : Option Nat := none
  change_fee : Option Nat := none
  upgrade_cost : Option Nat := none
deriving Repr, DecidableEq

/-- Result dict of `create_booking`. -/
structure CreateResult where
  success : Bool
  booking_id : String
  message : String
deriving Repr, DecidableEq

/-- The dict `process_book_flight` passes to `create_booking`. -/
structure BookingData where
  user_id : String
  flight_number : String
  passenger_name : String
  departure_date : String
  origin : String
  destination : String
  seat_number : String
deriving Repr, DecidableEq

/-- The booking backend at its call boundary (spec §6 collaborator
contract). `mockApi` below instantiates it from `airline_api.py`; booking
ids travel as `Option String` because handlers pass `state_data.get(...)`,
and a SQL comparison with `NULL` matches no row. -/
structure Api where
  get_booking : Option String → Option String → List Booking → Option Booking
  get_user_bookings : String → List Booking → List Booking
  cancel_booking : Option String → List Booking → ApiResult × List Booking
  get_available_seats : String → List String
  change_flight : Option String → String → String → List Booking → ApiResult × List Booking
  upgrade_seat : Option String → String → List Booking → ApiResult × List Booking
  create_booking : BookingData → List Booking → CreateResult × List Booking

/-- `MockAirlineAPI.get_booking`. -/
def mockGetBooking (bid uid : Option String) (bs : List Booking) : Option Booking :=
  match bid with
  | none => none
  | some b =>
    match uid with
    | some u => bs.find? (fun r => r.booking_id == b && r.user_id == u)
    | none => bs.find? (fun r => r.booking_id == b)

/-- Insertion sort, descending in `departure_date` (SQLite text order),
modelling `ORDER BY departure_date DESC`. -/
def sortByDateDesc (bs : List Booking) : List Booking :=
  bs.foldr (fun b acc => insertDesc b acc) []
where
  insertDesc (b : Booking) : List Booking → List Booking
    | [] => [b]
    | x :: xs => if lexLt x.departure_date.toList b.departure_date.toList then b :: x :: xs
                 else x :: insertDesc b xs

/-- `MockAirlineAPI.get_user_bookings`. -/
def mockGetUserBookings (uid : String) (bs : List Booking) : List Booking :=
  sortByDateDesc (bs.filter (fun r => r.user_id == uid && r.status == "confirmed"))

/-- `MockAirlineAPI.cancel_booking`; `refund` stands for
`random.randint(200, 500)`. -/
def mockCancelBooking (refund : Nat) (bid : Option String) (bs : List Booking) :
    ApiResult × List Booking :=
  match bid.bind (fun b => bs.find? (fun r => r.booking_id == b)) with
  | none =>
    ({ success := false, message := "Booking " ++ optStr bid ++ " not found" }, bs)
  | some r =>
    if r.status == "cancelled" then
      ({ success := false,
         message := "Booking " ++ optStr bid ++ " is already cancelled" }, bs)
    else
      ({ success := true,
         message := "Booking " ++ optStr bid ++ " has been cancelled successfully",
         refund_amount := some refund },
       bs.map (fun x => if some x.booking_id == bid then { x with status := "cancelled" } else x))

/-- `MockAirlineAPI.available_seats`, the table set in `__init__`. -/
def mockAvailableSeats (flight_number : String) : List String :=
  if flight_number == "AA101" then ["12A", "12B", "15C", "20A", "20B"]
  else if flight_number == "AA202" then ["8B", "10A", "10B", "18C"]
  else if flight_number == "AA303" then ["5C", "7A", "7B", "14A"]
  else []

/-- `MockAirlineAPI.change_flight` (`UPDATE` row count 0 means not found). -/
def mockChangeFlight (bid : Option String) (fn date : String) (bs : List Booking) :
    ApiResult × List Booking :=
  if (bid.map (fun b => bs.any (fun r => r.booking_id == b))).getD false then
    ({ success := true, message := "Flight changed to " ++ fn ++ " on " ++ date,
       change_fee := some 75 },
     bs.map (fun x => if some x.booking_id == bid then
       { x with flight_number := fn, departure_date := date } else x))
  else
    ({ success := false, message := "Booking " ++ optStr bid ++ " not found" }, bs)

/-- `MockAirlineAPI.upgrade_seat`; `cost` stands for `random.randint(50, 150)`. -/
def mockUpgradeSeat (cost : Nat) (bid : Option String) (seat : String) (bs : List Booking) :
    ApiResult × List Booking :=
  if (bid.map (fun b => bs.any (fun r => r.booking_id == b))).getD false then
    ({ success := true, message := "Seat upgraded to " ++ seat,
       upgrade_cost := some cost },
     bs.map (fun x => if some x.booking_id == bid then { x with seat_number := seat } else x))
  else
    ({ success := false, message := "Booking " ++ optStr bid ++ " not found" }, bs)

/-- Python `f"BK{n:03d}"`. -/
def bkId (n : Nat) : String :=
  "BK" ++ (if n < 10 then "00" ++ toString n
           else if n < 100 then "0" ++ toString n
           else toString n)

/-- `MockAirlineAPI.create_booking` (`COUNT(*)` is the full table length). -/
def mockCreateBooking (d : BookingData) (bs : List Booking) :
    CreateResult × List Booking :=
  let booking_id := bkId (bs.length + 1)
  ({ success := true, booking_id := booking_id,
     message := "Booking created successfully" },
   bs ++ [⟨booking_id, d.user_id, d.flight_number, d.passenger_name,
           d.departure_date, d.origin, d.destination, d.seat_number, "confirmed"⟩])

/-- The mock backend of `airline_api.py`, with the two `random.randint`
amounts as parameters. -/
def mockApi (refund cost : Nat) : Api :=
  { get_booking := mockGetBooking
    get_user_bookings := mockGetUserBookings
    cancel_booking := mockCancelBooking refund
    get_available_seats := mockAvailableSeats
    change_flight := mockChangeFlight
    upgrade_seat := mockUpgradeSeat cost
    create_booking := mockCreateBooking }

/-- A row of the seeded `policies` table, as handlers read it. -/
structure Policy where
  policy_name : String
  content : String
deriving Repr, DecidableEq

/-- The three `(policy_name, policy_type, content)` rows `database.py`
seeds into the `policies` table. -/
def seededPolicies : List (String × String × String) :=
  [("Cancellation Policy", "cancellation",
    "Flights can be cancelled up to 24 hours before departure for a full refund. Cancellations within 24 hours incur a $50 fee."),
   ("Baggage Policy", "baggage",
    "Each passenger is allowed 1 carry-on bag (22x14x9 inches) and 1 personal item. Checked bags cost $30 for the first bag, $40 for the second."),
   ("Change Policy", "change",
    "Flight changes are allowed up to 2 hours before departure. Change fees vary by ticket type: $0 for flexible tickets, $75 for standard tickets.")]

/-- The `policy_map` of `RecommendationEngine.get_policy_recommendations`. -/
def policyMap (intent : String) : Option String :=
  if intent == "cancel_booking" then some "cancellation"
  else if intent == "cancellation_policy" then some "cancellation"
  else if intent == "baggage_info" then some "baggage"
  else if intent == "change_flight" then some "change"
  else none

/-- `RecommendationEngine.get_policy_recommendations` over the seeded table. -/
def get_policy_recommendations (intent : String) : List Policy :=
  match policyMap intent with
  | none => []
  | some t => (seededPolicies.filter (fun p => p.2.1 == t)).map
      (fun p => ⟨p.1, p.2.2⟩)

/-- A recommendation dict, one constructor per dict shape the code builds. -/
inductive Rec where
  | policy (policy_name content : String)
  | seatUpgrade (description booking_id : String)
  | service (service : String) (price : Nat) (description booking_id : String)
  | simple (text type : String)
deriving Repr, DecidableEq

/-- The `seat_upgrades` table of `RecommendationEngine.__init__`. -/
def seatUpgradesTable (cls : String) : List String :=
  if cls == "economy" then
    ["Premium Economy - Extra legroom for $50",
     "Business Class - Full service for $200"]
  else if cls == "premium_economy" then
    ["Business Class - Full service for $150"]
  else []

/-- `RecommendationEngine.get_seat_upgrade_recommendations`; `none` models
the `int('')` `ValueError` when the seat has no digit. -/
def get_seat_upgrade_recommendations (b : Booking) : Option (List Rec) :=
  let seat := b.seat_number
  if seat ≠ "" then
    let ds := seat.toList.filter Char.isDigit
    if ds.isEmpty then none
    else
      let row := digitsToNat (String.mk ds)
      let cls := if row ≤ 5 then "business"
                 else if row ≤ 10 then "premium_economy" else "economy"
      some ((seatUpgradesTable cls).map (fun u => .seatUpgrade u b.booking_id))
  else
    some ((seatUpgradesTable "economy").map (fun u => .seatUpgrade u b.booking_id))

/-- Intent classification and entity extraction at the NLU boundary
(embedding-based in the source, so a parameter here). -/
structure Entities where
  booking_id : Option String := none
  origin : Option String := none
  destination : Option String := none
  date : Option String := none
  passenger_name : Option String := none
deriving Repr, DecidableEq

/-- The dict `nlu.process` returns (confidence is never read downstream). -/
structure NluResult where
  intent : String
  entities : Entities
  original_message : String
deriving Repr, DecidableEq

/-- External collaborators and ambient values fixed during a turn: the
booking backend, NLU reclassification, today's date, and the service
recommendations `random.sample` picks. -/
structure Env where
  api : Api
  nlu : String → NluResult
  today : Nat × Nat × Nat
  sampleServices : List (String × Nat)

/-- `RecommendationEngine.get_service_recommendations`, with the sampled
services supplied by the environment. -/
def get_service_recommendations (env : Env) (b : Booking) : List Rec :=
  env.sampleServices.map (fun sp =>
    .service sp.1 sp.2 ("Add " ++ sp.1 ++ " for $" ++ toString sp.2) b.booking_id)

/-- `RecommendationEngine.get_recommendations`. -/
def get_recommendations (env : Env) (intent : String) (booking : Option Booking) :
    Option (List Rec) :=
  let recs := (get_policy_recommendations intent).map
    (fun p => Rec.policy p.policy_name p.content)
  match booking with
  | none => some recs
  | some b =>
    let withSeat :=
      if intent == "check_status" || intent == "seat_upgrade" then
        match get_seat_upgrade_recommendations b with
        | none => none
        | some sr => some (recs ++ sr.take 2)
      else some recs
    match withSeat with
    | none => none
    | some rs =>
      if intent == "check_status" then
        some (rs ++ (get_service_recommendations env b).take 2)
      else some rs

/-- The mutable world a turn runs in: the two SQLite tables, the cache, a
strictly monotone clock, the uuid supply, and (instrumentation only, no
behavioural effect) the list of `create_booking` invocations. -/
structure St where
  db : List WorkflowRow
  cache : List CacheEntry
  bookings : List Booking
  now : Nat
  nextUuid : Nat
  createCalls : List BookingData
deriving Repr, DecidableEq

/-- What a handler returns to the caller. -/
structure TurnResult where
  response : String
  recommendations : List Rec
deriving Repr, DecidableEq

/-- The cache key `f"workflow:{session_id}"`. -/
def wkey (sid : String) : String := "workflow:" ++ sid

/-- `str(uuid.uuid4())`, modelled as a counter-backed fresh name. -/
def freshUuid (st : St) : String × St :=
  ("wf-" ++ toString st.nextUuid, { st with nextUuid := st.nextUuid + 1 })

/-- `ORDER BY updated_at DESC LIMIT 1` (the clock is strictly monotone, so
reachable states have no ties; on a tie the earlier row wins). -/
def latestActiveRow (rows : List WorkflowRow) : Option WorkflowRow :=
  rows.foldl (fun acc r =>
    match acc with
    | none => some r
    | some a => if a.updated_at < r.updated_at then some r else acc) none

/-- `WorkflowEngine.get_workflow_state`: cache read-through, populating the
cache with TTL 600 on a database hit. -/
def get_workflow_state (sid uid : String) (st : St) : Option WorkflowView × St :=
  match cacheGet st.cache st.now (wkey sid) with
  | (some v, _) => (some v, st)
  | (none, c') =>
    let st := { st with cache := c' }
    match latestActiveRow (st.db.filter (fun r =>
        r.session_id == sid && r.user_id == uid && r.status == "active")) with
    | some row =>
      (some row.view,
       { st with cache := cacheSet st.cache (wkey sid) (st.now + 600) row.view })
    | none => (none, st)

/-- `WorkflowEngine.save_workflow_state`: `INSERT OR REPLACE` keyed by
`workflow_id`, fresh `updated_at`, cache refreshed with TTL 600. -/
def save_workflow_state (wid sid uid wtype step : String) (sd : StateData)
    (status : String) (st : St) : St :=
  { st with
    db := st.db.filter (fun r => r.workflow_id ≠ wid)
          ++ [⟨wid, uid, sid, wtype, step, sd, status, st.now⟩],
    cache := cacheSet st.cache (wkey sid) (st.now + 600)
             ⟨wid, uid, sid, wtype, step, sd, status⟩,
    now := st.now + 1 }

/-- `WorkflowEngine.complete_workflow`: flip the row to completed and delete
the session's cache entry. -/
def complete_workflow (wid sid : String) (st : St) : St :=
  { st with
    db := st.db.map (fun r =>
      if r.workflow_id == wid then
        { r with status := "completed", updated_at := st.now } else r),
    cache := cacheDelete st.cache (wkey sid),
    now := st.now + 1 }

/-- Number of rows with status `active` for one `(user, session)` scope. -/
def countActive (uid sid : String) (db : List WorkflowRow) : Nat :=
  (db.filter (fun r =>
    r.user_id == uid && r.session_id == sid && r.status == "active")).length

/-- The booking line of the listings in `process_booking_check` and
`process_cancellation`. -/
def bookingLine (b : Booking) : String :=
  "🎫 **" ++ b.booking_id ++ "** - Flight " ++ b.flight_number ++ " ("
    ++ b.origin ++ " → " ++ b.destination ++ ") on " ++ b.departure_date

/-- `WorkflowEngine.process_booking_check`. -/
def process_booking_check (env : Env) (r : NluResult) (uid sid : String)
    (st : St) : Option (TurnResult × St) :=
  let booking_id := r.entities.booking_id
  let (workflow?, st) := get_workflow_state sid uid st
  let (_, st) :=
    match workflow? with
    | some w =>
      if w.workflow_type ≠ "check_status" && truthy booking_id then
        ((none : Option WorkflowView), complete_workflow w.workflow_id sid st)
      else (some w, st)
    | none => (none, st)
  if !truthy booking_id then
    let bookings := env.api.get_user_bookings uid st.bookings
    if bookings.isEmpty then
      some (⟨"I don't see any active bookings for you. Would you like to book a new flight? Just let me know your departure city, destination, and preferred date!",
              []⟩, st)
    else if bookings.length == 1 then
      match bookings.head? with
      | none => none
      | some booking =>
        let (workflow_id, st) := freshUuid st
        let st := save_workflow_state workflow_id sid uid "check_status"
          "showing_details" [("booking_id", .s booking.booking_id)] "active" st
        match get_recommendations env "check_status" (some booking) with
        | none => none
        | some recs =>
          some (⟨"Here's your booking:\n\n🎫 **Booking " ++ booking.booking_id
              ++ "**\n✈️ Flight: " ++ booking.flight_number
              ++ "\n👤 Passenger: " ++ booking.passenger_name
              ++ "\n📅 Date: " ++ booking.departure_date
              ++ "\n🛫 Route: " ++ booking.origin ++ " → " ++ booking.destination
              ++ "\n💺 Seat: " ++ booking.seat_number
              ++ "\n📊 Status: " ++ upperStr booking.status
              ++ "\n\nWould you like to:\n• Cancel this booking?\n• Change your flight date?\n• Upgrade your seat?\n• Or is everything looking good?",
            recs⟩, st)
    else
      some (⟨"You have " ++ toString bookings.length ++ " active bookings:\n\n"
          ++ String.intercalate "\n" (bookings.map bookingLine)
          ++ "\n\nWhich one would you like to check? Just tell me the booking ID, or I can help you with something else!",
        []⟩, st)
  else
    let bidS := optStr booking_id
    match env.api.get_booking booking_id (some uid) st.bookings with
    | none =>
      if (env.api.get_user_bookings uid st.bookings).isEmpty then
        some (⟨"⚠️ I couldn't find booking " ++ bidS
            ++ ".\n\nYou don't have any bookings in our system yet. Would you like to book a new flight?",
          [.simple "Book a flight" "book_flight"]⟩, st)
      else
        some (⟨"⚠️ I couldn't find booking " ++ bidS
            ++ " under your account.\n\nThis booking ID either doesn't exist or doesn't belong to you. Would you like me to show your bookings?",
          [.simple "Show my bookings" "check_status"]⟩, st)
    | some booking =>
      let (workflow_id, st) := freshUuid st
      let st := save_workflow_state workflow_id sid uid "check_status"
        "showing_details" [("booking_id", .s bidS)] "active" st
      match get_recommendations env "check_status" (some booking) with
      | none => none
      | some recs =>
        some (⟨"Here are the details for **" ++ bidS
            ++ "**:\n\n✈️ Flight: " ++ booking.flight_number
            ++ "\n👤 Passenger: " ++ booking.passenger_name
            ++ "\n📅 Date: " ++ booking.departure_date
            ++ "\n🛫 Route: " ++ booking.origin ++ " → " ++ booking.destination
            ++ "\n💺 Seat: " ++ booking.seat_number
            ++ "\n📊 Status: " ++ upperStr booking.status
            ++ "\n\nWhat would you like to do?\n• Cancel this booking?\n• Change the flight date?\n• Upgrade your seat?\n• Check baggage allowance?",
          recs⟩, st)

/-- First seeded cancellation policy's content, with the handler's default. -/
def cancelPolicyText : String :=
  match (get_policy_recommendations "cancel_booking").head? with
  | some p => p.content
  | none => "Standard cancellation fees may apply."

/-- `WorkflowEngine.process_cancellation`. -/
def process_cancellation (env : Env) (r : NluResult) (uid sid : String)
    (st : St) : Option (TurnResult × St) :=
  let booking_id := r.entities.booking_id
  let message := lowerStr r.original_message
  let (workflow?, st) := get_workflow_state sid uid st
  let startNew : St → Option (TurnResult × St) := fun st =>
    if !truthy booking_id then
      let (workflow_id, st) := freshUuid st
      let st := save_workflow_state workflow_id sid uid "cancel_booking"
        "waiting_for_id" [] "active" st
      some (⟨"I can help you cancel your booking. Which booking would you like to cancel? Please provide your booking ID (e.g., BK001), or I can show you all your bookings if you'd like!",
              []⟩, st)
    else
      match env.api.get_booking booking_id (some uid) st.bookings with
      | none =>
        some (⟨"I couldn't find booking " ++ optStr booking_id
            ++ ". Could you check the booking ID again? Or type 'show my bookings' to see all your reservations.",
          []⟩, st)
      | some booking =>
        let (workflow_id, st) := freshUuid st
        let st := save_workflow_state workflow_id sid uid "cancel_booking"
          "confirm" [("booking_id", .s (optStr booking_id))] "active" st
        some (⟨"I found your booking:\n\n✈️ Flight " ++ booking.flight_number
            ++ " on " ++ booking.departure_date
            ++ "\n🛫 Route: " ++ booking.origin ++ " → " ++ booking.destination
            ++ "\n💺 Seat: " ++ booking.seat_number
            ++ "\n\n📋 **Cancellation Policy**: " ++ cancelPolicyText
            ++ "\n\nAre you sure you want to cancel? Reply **'yes'** to confirm or **'no'** if you'd like to keep it. You can also ask me about changing the flight instead!",
          []⟩, st)
  match workflow? with
  | none => startNew st
  | some workflow =>
    if workflow.workflow_type ≠ "cancel_booking" then startNew st
    else
      let state_data := workflow.state_data
      if workflow.current_step == "waiting_for_id" then
        if containsSub message "show" || containsSub message "all"
            || containsSub message "list" then
          let bookings := env.api.get_user_bookings uid st.bookings
          if bookings.isEmpty then
            let st := complete_workflow workflow.workflow_id sid st
            some (⟨"You don't have any active bookings. Would you like to book a new flight?",
                    []⟩, st)
          else
            some (⟨"Here are your bookings:\n\n"
                ++ String.intercalate "\n" (bookings.map bookingLine)
                ++ "\n\nWhich one would you like to cancel? Just tell me the booking ID.",
              []⟩, st)
        else if truthy booking_id then
          match env.api.get_booking booking_id (some uid) st.bookings with
          | none =>
            some (⟨"I couldn't find booking " ++ optStr booking_id
                ++ ". Could you please double-check the booking ID? Or type 'show all' to see your bookings.",
              []⟩, st)
          | some booking =>
            let st := save_workflow_state workflow.workflow_id sid uid
              "cancel_booking" "confirm"
              [("booking_id", .s (optStr booking_id))] "active" st
            some (⟨"Got it! Here's your booking:\n\n✈️ Flight "
                ++ booking.flight_number ++ " on " ++ booking.departure_date
                ++ "\n🛫 Route: " ++ booking.origin ++ " → " ++ booking.destination
                ++ "\n💺 Seat: " ++ booking.seat_number
                ++ "\n\n📋 **Cancellation Policy**: " ++ cancelPolicyText
                ++ "\n\nAre you sure you want to cancel? Reply **'yes'** to proceed or **'no'** to keep it. You can also ask about changing the flight date instead!",
              []⟩, st)
        else
          some (⟨"I need your booking ID to proceed. Please provide it (e.g., BK001), or I can 'show all' your bookings if that helps!",
                  []⟩, st)
      else if workflow.current_step == "confirm" then
        if containsSub message "change" || containsSub message "modify"
            || containsSub message "reschedule" then
          let st := save_workflow_state workflow.workflow_id sid uid
            "change_flight" "waiting_for_new_date"
            [("booking_id", sdGet state_data "booking_id")] "active" st
          some (⟨"Great! Let's change your flight instead of canceling it. What's your preferred new date? Please provide it in YYYY-MM-DD format (e.g., 2025-12-01).",
                  []⟩, st)
        else if containsSub message "policy" || containsSub message "fee"
            || containsSub message "refund" || containsSub message "cost" then
          some (⟨"📋 **Cancellation Policy**:\n" ++ cancelPolicyText
              ++ "\n\nDo you still want to proceed with cancellation? Reply 'yes' or 'no'.",
            []⟩, st)
        else if containsSub message "yes" || containsSub message "confirm"
            || containsSub message "sure" || containsSub message "proceed" then
          let bid := sdGetStr state_data "booking_id"
          let (result, bookings') := env.api.cancel_booking bid st.bookings
          let st := { st with bookings := bookings' }
          let st := complete_workflow workflow.workflow_id sid st
          if result.success then
            some (⟨"✅ All done! Your booking " ++ optStr bid
                ++ " has been cancelled successfully.\n\n💰 Refund amount: $"
                ++ toString (result.refund_amount.getD 0)
                ++ "\n⏰ Your refund will be processed within 5-7 business days.\n\nYou'll receive a confirmation email shortly. Is there anything else I can help you with? Maybe book a new flight or check other bookings?",
              []⟩, st)
          else
            some (⟨"❌ Oops! " ++ result.message
                ++ "\n\nWould you like to try again, or can I help you with something else?",
              []⟩, st)
        else if containsSub message "no" || containsSub message "nevermind"
            || containsSub message "keep" || containsSub message "don't"
            || containsSub message "cancel" then
          let st := complete_workflow workflow.workflow_id sid st
          some (⟨"No problem! I've kept your booking active. 👍\n\nIs there anything else I can help you with? Maybe:\n• Change your flight date?\n• Upgrade your seat?\n• Check baggage allowance?",
                  []⟩, st)
        else
          some (⟨"I didn't quite catch that. To cancel the booking, reply **'yes'**. To keep it, reply **'no'**. Or if you'd like to change the flight instead, just say 'change flight'!",
                  []⟩, st)
      else
        some (⟨"I'm not sure what happened. Let's start over. What would you like to do?",
                []⟩, st)

/-- First seeded change policy's content with the start-branch default. -/
def changePolicyText : String :=
  match (get_policy_recommendations "change_flight").head? with
  | some p => p.content
  | none => "Change fees apply based on ticket type."

/-- Same lookup with the continue-branch's shorter default. -/
def changePolicyTextShort : String :=
  match (get_policy_recommendations "change_flight").head? with
  | some p => p.content
  | none => "Change fees apply."

/-- `WorkflowEngine.process_change_flight`. -/
def process_change_flight (env : Env) (r : NluResult) (uid sid : String)
    (st : St) : Option (TurnResult × St) :=
  let booking_id := r.entities.booking_id
  let new_date := r.entities.date
  let (workflow?, st) := get_workflow_state sid uid st
  let (workflow?, st) :=
    match workflow? with
    | some w =>
      if w.workflow_type ≠ "change_flight" && truthy booking_id then
        ((none : Option WorkflowView), complete_workflow w.workflow_id sid st)
      else (some w, st)
    | none => (none, st)
  let startNew : St → Option (TurnResult × St) := fun st =>
    if !truthy booking_id then
      let (workflow_id, st) := freshUuid st
      let st := save_workflow_state workflow_id sid uid "change_flight"
        "waiting_for_id" [] "active" st
      some (⟨"I can help you change your flight! Which booking would you like to modify? Please provide your booking ID (e.g., BK001).",
              []⟩, st)
    else
      match env.api.get_booking booking_id (some uid) st.bookings with
      | none =>
        if (env.api.get_user_bookings uid st.bookings).isEmpty then
          some (⟨"⚠️ I couldn't find booking " ++ optStr booking_id
              ++ ".\n\nYou don't have any bookings yet. Would you like to book a flight first?",
            [.simple "Book a flight" "book_flight"]⟩, st)
        else
          some (⟨"⚠️ I couldn't find booking " ++ optStr booking_id
              ++ " under your account.\n\nPlease check the booking ID or view your bookings to find the right one.",
            [.simple "Show my bookings" "check_status"]⟩, st)
      | some booking =>
        let (workflow_id, st) := freshUuid st
        let st := save_workflow_state workflow_id sid uid "change_flight"
          "waiting_for_new_date" [("booking_id", .s (optStr booking_id))] "active" st
        some (⟨"Perfect! Your current booking:\n\n✈️ Flight "
            ++ booking.flight_number ++ " on " ++ booking.departure_date
            ++ "\n🛫 Route: " ++ booking.origin ++ " → " ++ booking.destination
            ++ "\n\n📋 **Change Policy**: " ++ changePolicyText
            ++ "\n\nWhat's your preferred new date? Please provide it in YYYY-MM-DD format (e.g., 2025-12-01).",
          []⟩, st)
  match workflow? with
  | none => startNew st
  | some workflow =>
    if workflow.workflow_type ≠ "change_flight" then startNew st
    else
      let state_data := workflow.state_data
      if workflow.current_step == "waiting_for_id" then
        if truthy booking_id then
          match env.api.get_booking booking_id (some uid) st.bookings with
          | none =>
            some (⟨"I couldn't find booking " ++ optStr booking_id
                ++ ". Could you double-check the booking ID?",
              []⟩, st)
          | some booking =>
            let st := save_workflow_state workflow.workflow_id sid uid
              "change_flight" "waiting_for_new_date"
              [("booking_id", .s (optStr booking_id))] "active" st
            some (⟨"Got it! Current booking:\n\n✈️ Flight "
                ++ booking.flight_number ++ " on " ++ booking.departure_date
                ++ "\n🛫 Route: " ++ booking.origin ++ " → " ++ booking.destination
                ++ "\n\n📋 " ++ changePolicyTextShort
                ++ "\n\nWhat's your new preferred date? (Format: YYYY-MM-DD)",
              []⟩, st)
        else
          some (⟨"I need your booking ID. Please provide it (e.g., BK001).",
                  []⟩, st)
      else if workflow.current_step == "waiting_for_new_date" then
        if truthy new_date then
          let nd := optStr new_date
          let vd := validate_date env.today nd
          if !vd.1 then
            some (⟨vd.2, []⟩, st)
          else
            let bid := sdGetStr state_data "booking_id"
            let booking? := env.api.get_booking bid (some uid) st.bookings
            let cancelledResp : TurnResult :=
              ⟨"⚠️ Booking " ++ optStr bid
                  ++ " has been cancelled and cannot be modified.\n\nWould you like to:\n• Check your other bookings?\n• Book a new flight?",
                []⟩
            match booking? with
            | none =>
              let st := complete_workflow workflow.workflow_id sid st
              some (cancelledResp, st)
            | some booking =>
              if booking.status == "cancelled" then
                let st := complete_workflow workflow.workflow_id sid st
                some (cancelledResp, st)
              else
                let (result, bookings') :=
                  env.api.change_flight bid booking.flight_number nd st.bookings
                let st := { st with bookings := bookings' }
                let st := complete_workflow workflow.workflow_id sid st
                if result.success then
                  some (⟨"✅ Perfect! Your flight has been changed!\n\n📋 Booking: "
                      ++ optStr bid ++ "\n✈️ Flight: " ++ booking.flight_number
                      ++ "\n📅 New date: " ++ nd
                      ++ "\n🛫 Route: " ++ booking.origin ++ " → " ++ booking.destination
                      ++ "\n💵 Change fee: $" ++ toString (result.change_fee.getD 0)
                      ++ "\n\nYou'll receive a confirmation email with your updated itinerary. Anything else I can help with?",
                    []⟩, st)
                else
                  some (⟨"❌ " ++ result.message
                      ++ "\n\nWould you like to try a different date?",
                    []⟩, st)
        else
          some (⟨"I need the new date for your flight.\n\n📅 Please provide it in YYYY-MM-DD format\nExample: 2025-12-15\n\n💡 Make sure the date is in the future!",
                  []⟩, st)
      else
        some (⟨"Something went wrong. Let's start over. What would you like to do?",
                []⟩, st)

/-- A regex word character (`\w`). -/
def isWordChar (c : Char) : Bool := c.isAlphanum || c == '_'

/-- Match `\d{1,2}[A-F]\b` at the head of `cs` (two digits tried first, as
the greedy quantifier does). -/
def seatAtHead (cs : List Char) : Option String :=
  let okTail : List Char → Bool
    | c :: _ => !isWordChar c
    | [] => true
  let two :=
    match cs with
    | d1 :: d2 :: l :: rest =>
      if d1.isDigit && d2.isDigit && 'A' ≤ l && l ≤ 'F' && okTail rest then
        some (String.mk [d1, d2, l])
      else none
    | _ => none
  match two with
  | some s => some s
  | none =>
    match cs with
    | d1 :: l :: rest =>
      if d1.isDigit && 'A' ≤ l && l ≤ 'F' && okTail rest then
        some (String.mk [d1, l])
      else none
    | _ => none

/-- Leftmost match of `re.search(r'\b(\d{1,2}[A-F])\b', s)`. -/
def findSeat (s : String) : Option String := go none s.toList
where
  go (prev : Option Char) : List Char → Option String
    | [] => none
    | c :: t =>
      let boundaryOk := match prev with
        | none => true
        | some p => !isWordChar p
      match (if boundaryOk then seatAtHead (c :: t) else none) with
      | some seat => some seat
      | none => go (some c) t

/-- `WorkflowEngine.process_seat_upgrade`. -/
def process_seat_upgrade (env : Env) (r : NluResult) (uid sid : String)
    (st : St) : Option (TurnResult × St) :=
  let booking_id := r.entities.booking_id
  let message := lowerStr r.original_message
  let (workflow?, st) := get_workflow_state sid uid st
  let startNew : St → Option (TurnResult × St) := fun st =>
    if !truthy booking_id then
      let (workflow_id, st) := freshUuid st
      let st := save_workflow_state workflow_id sid uid "seat_upgrade"
        "waiting_for_id" [] "active" st
      some (⟨"I can help you upgrade your seat! Which booking would you like to upgrade? Please provide your booking ID (e.g., BK001).",
              []⟩, st)
    else
      match env.api.get_booking booking_id (some uid) st.bookings with
      | none =>
        some (⟨"I couldn't find booking " ++ optStr booking_id
            ++ ". Please check and try again.",
          []⟩, st)
      | some booking =>
        let available_seats := env.api.get_available_seats booking.flight_number
        let (workflow_id, st) := freshUuid st
        let st := save_workflow_state workflow_id sid uid "seat_upgrade"
          "waiting_for_seat_choice"
          [("booking_id", .s (optStr booking_id)),
           ("available_seats", .ls available_seats)] "active" st
        let seat_list := if available_seats.isEmpty then "None available"
                         else String.intercalate ", " available_seats
        match get_seat_upgrade_recommendations booking with
        | none => none
        | some recs =>
          some (⟨"Great! Your current seat is **" ++ booking.seat_number
              ++ "**.\n\nAvailable seats for upgrade: " ++ seat_list
              ++ "\n\nWhich seat would you like? Or ask me about the difference between Economy, Premium Economy, and Business Class!",
            recs⟩, st)
  match workflow? with
  | none => startNew st
  | some workflow =>
    if workflow.workflow_type ≠ "seat_upgrade" then startNew st
    else
      let state_data := workflow.state_data
      if workflow.current_step == "waiting_for_id" && truthy booking_id then
        match env.api.get_booking booking_id (some uid) st.bookings with
        | none =>
          some (⟨"I couldn't find that booking. Could you check the ID?",
                  []⟩, st)
        | some booking =>
          let available_seats := env.api.get_available_seats booking.flight_number
          let st := save_workflow_state workflow.workflow_id sid uid
            "seat_upgrade" "waiting_for_seat_choice"
            [("booking_id", .s (optStr booking_id)),
             ("available_seats", .ls available_seats)] "active" st
          let seat_list := if available_seats.isEmpty then "None available"
                           else String.intercalate ", " available_seats
          some (⟨"Current seat: **" ++ booking.seat_number
              ++ "**\n\nAvailable: " ++ seat_list ++ "\n\nWhich would you like?",
            []⟩, st)
      else if workflow.current_step == "waiting_for_seat_choice" then
        match findSeat (upperStr message) with
        | some new_seat =>
          let available_seats := sdGetSeats state_data "available_seats"
          if !available_seats.contains new_seat then
            some (⟨"Sorry, seat " ++ new_seat
                ++ " isn't available. Available seats are: "
                ++ String.intercalate ", " available_seats
                ++ ". Which would you prefer?",
              []⟩, st)
          else
            let bid := sdGetStr state_data "booking_id"
            let (result, bookings') := env.api.upgrade_seat bid new_seat st.bookings
            let st := { st with bookings := bookings' }
            let st := complete_workflow workflow.workflow_id sid st
            if result.success then
              some (⟨"✅ Awesome! Your seat has been upgraded to **"
                  ++ new_seat ++ "**!\n\n💵 Upgrade cost: $"
                  ++ toString (result.upgrade_cost.getD 0)
                  ++ "\n\nYou're all set! Anything else I can help with?",
                []⟩, st)
            else
              some (⟨"❌ " ++ result.message
                  ++ "\n\nWould you like to try another seat?",
                []⟩, st)
        | none =>
          some (⟨"Please specify a seat number (e.g., 12A, 5C). Which seat would you like?",
                  []⟩, st)
      else
        some (⟨"Something went wrong. What would you like to do?",
                []⟩, st)

/-- The fixed keyword set of `handle_irrelevant_query`. -/
def irrelevant_patterns : List String :=
  ["weather", "news", "joke", "story", "recipe", "game",
   "calculate", "math", "translate", "define", "wikipedia",
   "sports", "movie", "music", "restaurant", "hotel"]

/-- The fixed out-of-scope reply of `handle_irrelevant_query`. -/
def outOfScopeResponse : String :=
  "I appreciate your question, but I'm specifically designed to help with airline services! 😊\n\nI can help you with:\n✈️ Booking and managing flights\n🎫 Checking booking status\n❌ Canceling or changing flights\n💺 Seat upgrades\n🧳 Baggage information\n📋 Policy details\n\nWhat can I help you with today regarding your flight?"

/-- `WorkflowEngine.handle_irrelevant_query` (`none` is Python's `None`). -/
def handle_irrelevant_query (message : String) : Option TurnResult :=
  if anyIn irrelevant_patterns (lowerStr message) then
    some ⟨outOfScopeResponse, []⟩
  else none

/-- The `question_indicators` list of `process_book_flight`. -/
def question_indicators : List String :=
  ["is there", "are there", "do you", "can i", "can you",
   "what is", "what are", "how much", "how many", "tell me",
   "policy", "allowed", "special", "children", "infant", "pet",
   "file", "complaint", "complain", "damaged", "missing", "lost",
   "discount", "deal", "fare", "price", "schedule", "insurance",
   "medical", "prohibited", "sport", "music", "instrument"]

/-- The `informational_intents` list of `process_book_flight` (also the
list `process_message` treats as purely informational, in its order there). -/
def informational_intents : List String :=
  ["pet_travel", "children_policy", "baggage_info", "cancellation_policy",
   "general_faq", "complaints", "damaged_bag", "missing_bag", "discounts",
   "fare_check", "flights_info", "insurance", "medical_policy",
   "prohibited_items", "sports_music_gear"]

/-- The slot-merge block of `process_book_flight`: each of the four slots
is `entities.get(slot) or state_data.get(slot)`, written back only when
truthy. -/
def merge_slot_data (entities : Entities) (sd : StateData) : StateData :=
  let origin := pyOr entities.origin (sdGetStr sd "origin")
  let destination := pyOr entities.destination (sdGetStr sd "destination")
  let date := pyOr entities.date (sdGetStr sd "date")
  let passenger_name := pyOr entities.passenger_name (sdGetStr sd "passenger_name")
  let sd := if truthy origin then sdSet sd "origin" (.s (optStr origin)) else sd
  let sd := if truthy destination then sdSet sd "destination" (.s (optStr destination)) else sd
  let sd := if truthy date then sdSet sd "date" (.s (optStr date)) else sd
  let sd := if truthy passenger_name then sdSet sd "passenger_name" (.s (optStr passenger_name)) else sd
  sd

/-- The `missing` list of `process_book_flight`, in the fixed order the
source appends: departure city, destination city, travel date,
passenger name. -/
def missing_slots (sd : StateData) : List String :=
  (if !valTruthy (sdGet sd "origin") then ["departure city"] else [])
  ++ (if !valTruthy (sdGet sd "destination") then ["destination city"] else [])
  ++ (if !valTruthy (sdGet sd "date") then ["travel date"] else [])
  ++ (if !valTruthy (sdGet sd "passenger_name") then ["passenger name"] else [])

/-- All four booking slots present and passing the handler's validations
(in its order: date, name, origin, destination, origin ≠ destination);
exactly the gate before `create_booking`. -/
def book_slots_valid (today : Nat × Nat × Nat) (sd : StateData) : Bool :=
  valTruthy (sdGet sd "origin") && valTruthy (sdGet sd "destination")
    && valTruthy (sdGet sd "date") && valTruthy (sdGet sd "passenger_name")
    && (validate_date today (optStr (sdGetStr sd "date"))).1
    && (validate_passenger_name (optStr (sdGetStr sd "passenger_name"))).1
    && (validate_airport_code (optStr (sdGetStr sd "origin")) "Departure city").1
    && (validate_airport_code (optStr (sdGetStr sd "destination")) "Destination city").1
    && !(upperStr (optStr (sdGetStr sd "origin"))
        == upperStr (optStr (sdGetStr sd "destination")))

/-- The missing-slot prompt of `process_book_flight`: what is on file so
far, then the missing items joined in their fixed order. -/
def book_missing_response (sd : StateData) (missing : List String) : String :=
  "Thanks! "
    ++ (if sd ≠ [] then
          "Here's what I have so far:\n"
          ++ (if valTruthy (sdGet sd "origin") then
                "✅ From: " ++ optStr (sdGetStr sd "origin") ++ "\n" else "")
          ++ (if valTruthy (sdGet sd "destination") then
                "✅ To: " ++ optStr (sdGetStr sd "destination") ++ "\n" else "")
          ++ (if valTruthy (sdGet sd "date") then
                "✅ Date: " ++ optStr (sdGetStr sd "date") ++ "\n" else "")
          ++ (if valTruthy (sdGet sd "passenger_name") then
                "✅ Passenger: " ++ optStr (sdGetStr sd "passenger_name") ++ "\n" else "")
          ++ "\n"
        else "")
    ++ "I still need: " ++ String.intercalate ", " missing
    ++ "\n\nPlease provide the missing information."

/-- `WorkflowEngine.process_book_flight`. When the message looks like a
question and NLU reclassifies it to an informational intent, the source
builds a `handler_map` dict literal that evaluates
`self.process_cancellation_policy` — an attribute that does not exist —
so that branch raises `AttributeError` (`none` here). -/
def process_book_flight (env : Env) (r : NluResult) (uid sid : String)
    (st : St) : Option (TurnResult × St) :=
  let entities := r.entities
  let message := r.original_message
  let message_lower := lowerStr message
  if anyIn question_indicators message_lower
      && informational_intents.contains (env.nlu message).intent then
    none
  else
    let (workflow?, st) := get_workflow_state sid uid st
    let startNew : St → Option (TurnResult × St) := fun st =>
      let (workflow_id, st) := freshUuid st
      let st := save_workflow_state workflow_id sid uid "book_flight"
        "collecting_details" [] "active" st
      some (⟨"Great! Let me help you book a new flight. ✈️\n\nI'll need the following information:\n📍 Departure city (e.g., JFK, LAX)\n📍 Destination city (e.g., ORD, MIA)\n📅 Travel date (YYYY-MM-DD format)\n👤 Passenger name\n\nYou can provide them all at once or one at a time!",
              []⟩, st)
    match workflow? with
    | none => startNew st
    | some workflow =>
      if workflow.workflow_type ≠ "book_flight" then startNew st
      else
        let state_data := merge_slot_data entities workflow.state_data
        let missing := missing_slots state_data
        if missing ≠ [] then
          let st := save_workflow_state workflow.workflow_id sid uid
            "book_flight" "collecting_details" state_data "active" st
          some (⟨book_missing_response state_data missing, []⟩, st)
        else
          let dateS := optStr (sdGetStr state_data "date")
          let nameS := optStr (sdGetStr state_data "passenger_name")
          let originS := optStr (sdGetStr state_data "origin")
          let destS := optStr (sdGetStr state_data "destination")
          let vDate := validate_date env.today dateS
          if !vDate.1 then
            let st := save_workflow_state workflow.workflow_id sid uid
              "book_flight" "collecting_details"
              (sdSet state_data "date" .null) "active" st
            some (⟨vDate.2 ++ "\n\nPlease provide a valid date.",
                    []⟩, st)
          else
            let vName := validate_passenger_name nameS
            if !vName.1 then
              let st := save_workflow_state workflow.workflow_id sid uid
                "book_flight" "collecting_details"
                (sdSet state_data "passenger_name" .null) "active" st
              some (⟨vName.2 ++ "\n\nPlease provide a valid passenger name.",
                      []⟩, st)
            else
              let vOrigin := validate_airport_code originS "Departure city"
              if !vOrigin.1 then
                let st := save_workflow_state workflow.workflow_id sid uid
                  "book_flight" "collecting_details"
                  (sdSet state_data "origin" .null) "active" st
                some (⟨vOrigin.2 ++ "\n\nPlease provide a valid departure city.",
                        []⟩, st)
              else
                let vDest := validate_airport_code destS "Destination city"
                if !vDest.1 then
                  let st := save_workflow_state workflow.workflow_id sid uid
                    "book_flight" "collecting_details"
                    (sdSet state_data "destination" .null) "active" st
                  some (⟨vDest.2 ++ "\n\nPlease provide a valid destination city.",
                          []⟩, st)
                else if upperStr originS == upperStr destS then
                  let st := save_workflow_state workflow.workflow_id sid uid
                    "book_flight" "collecting_details"
                    (sdSet (sdSet state_data "origin" .null) "destination" .null)
                    "active" st
                  some (⟨"⚠️ Origin and destination cannot be the same!\n\nYou selected "
                      ++ originS ++ " for both. Please provide different departure and destination cities.",
                    []⟩, st)
                else
                  let data : BookingData :=
                    ⟨uid, "AA999", nameS, dateS, originS, destS, "TBD"⟩
                  let (booking_result, bookings') :=
                    env.api.create_booking data st.bookings
                  let st := { st with bookings := bookings',
                                      createCalls := st.createCalls ++ [data] }
                  let st := complete_workflow workflow.workflow_id sid st
                  if booking_result.success then
                    some (⟨"✅ Perfect! Your flight has been booked!\n\n📋 Booking ID: "
                        ++ booking_result.booking_id ++ "\n✈️ Flight: AA999\n👤 Passenger: "
                        ++ nameS ++ "\n📅 Date: " ++ dateS
                        ++ "\n🛫 Route: " ++ originS ++ " → " ++ destS
                        ++ "\n\nYou'll receive a confirmation email shortly. Is there anything else I can help you with?",
                      []⟩, st)
                  else
                    some (⟨"❌ Sorry, there was an error creating your booking.\n\nPlease try again or contact customer support.",
                            []⟩, st)

/-- Canned body of `process_children_policy`. -/
def childrenPolicyText : String :=
  "\n👶 **Children & Infant Seating Policy**\n\n**Infants (Under 2 years):**\n• 🆓 Can travel on parent's lap for free (domestic)\n• 💺 May purchase a seat at child fare if preferred\n• 🎫 Must have their own ticket\n• ⚠️ Maximum 1 lap infant per adult\n• 📝 Proof of age may be required\n\n**Children (2-11 years):**\n• 💺 Must have their own purchased seat\n• 👨‍👩‍👧 No unaccompanied minor under age 5\n• 🎯 Ages 5-14: Unaccompanied minor service available ($150)\n• 🪑 No special seat requirements - regular seats\n\n**Car Seats & Boosters:**\n• ✅ FAA-approved car seats allowed for children under 40 lbs\n• 💺 Must fit in aircraft seat (max 16\" wide)\n• 🔒 Must be properly secured\n• 🆓 No extra charge if child has own seat\n\n**Seating Together:**\n• 👨‍👩‍👧‍👦 We try to seat families together\n• 📞 Call to request adjacent seats\n• 🎫 Select seats during booking for best choice\n\n**Special Accommodations:**\n• 🍼 Bottle warming available on request\n• 🚼 Changing tables in lavatories\n• 🎮 Kids entertainment available on most flights\n\nWould you like to know anything else about traveling with children?\n"

/-- Canned body of `process_complaints`. -/
def complaintsText : String :=
  "📝 **File a Complaint**\n\nI'm sorry to hear you had a negative experience. Your feedback is important to us.\n\n**To file a complaint, please provide:**\n• Your booking ID (if applicable)\n• Date and flight number\n• Description of the issue\n• What resolution you're seeking\n\n**Contact Options:**\n• 📞 Call: 1-800-JETBLUE (538-2583)\n• 📧 Email: customer.relations@jetblue.com\n• 💬 Online form: jetblue.com/contact-us\n\nWe typically respond within 24-48 hours.\n\nIs there anything else I can help you with today?"

/-- Canned body of `process_damaged_bag`. -/
def damagedBagText : String :=
  "💼 **Damaged Baggage Claim**\n\nI'm sorry your baggage was damaged. Here's what to do:\n\n**Immediate Steps:**\n• 🚨 Report damage BEFORE leaving the airport\n• 📋 Go to the Baggage Service Office\n• 📸 Take photos of the damage\n• 🎫 Keep your baggage claim tag\n\n**Required Information:**\n• Booking ID or ticket number\n• Baggage claim tag number\n• Description of damage\n• Photos of damaged items\n\n**Claim Process:**\n• File within 24 hours for domestic, 7 days for international\n• We'll assess repair vs. replacement\n• Reimbursement up to $3,500 per passenger\n\n**Contact:**\n📞 Baggage Service: 1-866-538-5438\n\nWould you like help with anything else?"

/-- Canned body of `process_missing_bag`. -/
def missingBagText : String :=
  "🧳 **Missing Baggage Report**\n\nI understand how stressful this is. Let's locate your bag:\n\n**Immediate Steps:**\n• 🚨 Report missing bag BEFORE leaving airport\n• 📋 File report at Baggage Service Office\n• 🎫 Provide your baggage claim tag\n• 📝 Get file reference number\n\n**We'll Need:**\n• Booking ID or ticket number\n• Baggage claim tag number\n• Bag description (color, brand, size)\n• Contents description\n• Delivery address\n\n**What Happens Next:**\n• 🔍 We search our system worldwide\n• 📱 Updates via text/email\n• 🚚 Free delivery once found (usually 24-48hrs)\n• 💵 Interim expense reimbursement available\n\n**Track Your Bag:**\n🌐 jetblue.com/travel/baggage-tracking\n📞 Baggage Services: 1-866-538-5438\n\nAnything else I can help with?"

/-- Canned body of `process_discounts`. -/
def discountsText : String :=
  "💰 **Discounts & Deals**\n\n**Current Offers:**\n• ✈️ TrueBlue Members: Earn points on every flight\n• 🎫 Blue Basic: Our lowest fares\n• 📧 Email Alerts: Get deal notifications\n\n**Special Discounts:**\n• 🎖️ Military: 5% off for active duty & veterans\n• 👨‍✈️ First Responders: Special rates available\n• 👶 Infants: Free lap seating under 2 years\n• 🎓 Student: Check student universe for deals\n\n**How to Save:**\n• 📅 Book Tuesday-Thursday for best prices\n• 🗓️ Fly Tuesday, Wednesday, Saturday\n• 📆 Book 3-4 weeks in advance\n• 🔔 Set fare alerts on our website\n\n**Loyalty Program:**\nJoin TrueBlue (free!):\n• Earn 3 points per $1 spent\n• Points never expire\n• No blackout dates\n• Family pooling available\n\n**Check Deals:**\n🌐 jetblue.com/deals\n\nReady to book a flight?"

/-- Canned body of `process_fare_check`. -/
def fareCheckText : String :=
  "💵 **Fare Information**\n\n**Fare Types:**\n\n**Blue Basic** (Economy Light)\n• Lowest price\n• 1 personal item only\n• No seat selection\n• Board last\n• No changes allowed\n\n**Blue** (Standard Economy)\n• 1 carry-on + 1 personal item\n• Free seat selection\n• Changes allowed (fee applies)\n• Earn full TrueBlue points\n\n**Blue Plus** (Economy with perks)\n• Everything in Blue, plus:\n• 1 free checked bag\n• Preferred seating\n• Early boarding\n• Bonus TrueBlue points\n\n**Blue Extra** (Extra Legroom)\n• 5+ inches extra legroom\n• Priority boarding\n• Fast track security (select airports)\n\n**Mint** (Business Class)\n• Lie-flat seats\n• 2 checked bags free\n• Gourmet meals\n• Priority everything\n\n**Get Exact Prices:**\nFares vary by:\n• Route & distance\n• Date & time\n• Booking timing\n• Seat availability\n\n💡 **Tip:** Book early for best prices!\n\nWould you like to search for specific flights?"

/-- Canned body of `process_flights_info`. -/
def flightsInfoText : String :=
  "✈️ **Flight Information**\n\n**JetBlue Route Network:**\n• 🇺🇸 100+ destinations in USA\n• 🌎 Caribbean & Latin America\n• 🗽 Major hubs: New York (JFK), Boston, Fort Lauderdale\n\n**Flight Features:**\n• 📺 Free entertainment on all flights\n• 🥤 Complimentary snacks & beverages\n• 📶 Wi-Fi available (fee applies)\n• 🔌 Power outlets at every seat\n\n**Check Flight Status:**\n• 🌐 jetblue.com/flight-status\n• 📱 JetBlue mobile app\n• 📞 Call: 1-800-JETBLUE\n\n**Typical Check-in Times:**\n• ⏰ Domestic: 2 hours before\n• 🌍 International: 3 hours before\n• 🚪 Boarding: 30-45 minutes before departure\n\n**Need Specific Info?**\nI can help you:\n• Check your booking status\n• Search available flights\n• Book a new flight\n\nWhat would you like to do?"

/-- Canned body of `process_insurance`. -/
def insuranceText : String :=
  "🛡️ **Travel Insurance & Protection**\n\n**JetBlue Coverage Options:**\n\n**Trip Protection** ($29-89 per person)\n• ✅ Trip cancellation coverage\n• ✅ Trip interruption\n• ✅ Travel delays (6+ hours)\n• ✅ Baggage delay/loss\n• ✅ Emergency medical\n• ✅ 24/7 travel assistance\n\n**What's Covered:**\n• 🏥 Illness or injury\n• 🏠 Home emergency\n• 🌪️ Severe weather\n• ⚠️ Mandatory evacuations\n• 💼 Work-related obligations\n\n**When to Buy:**\n• 📅 Purchase within 24 hours of booking for full coverage\n• ⏰ Can add up to departure date (limited coverage)\n\n**JetBlue's Built-in Flexibility:**\n• 🔄 24-hour risk-free booking\n• ✈️ Flight changes allowed (fee may apply)\n• 💳 TrueBlue points bookings: Cancel anytime\n\n**Coverage Limits:**\n• Trip cost: Up to $10,000\n• Medical: Up to $50,000\n• Baggage: Up to $500\n\n**Purchase Insurance:**\n• During booking process\n• jetblue.com/insurance\n• Or manage trips section\n\nWould you like to book a flight?"

/-- Canned body of `process_medical_policy`. -/
def medicalPolicyText : String :=
  "🏥 **Medical & Health Policies**\n\n**Flying When Sick:**\n• 🤧 Mild cold/congestion: Generally OK\n• 🤒 Fever/infectious disease: Wait until recovered\n• 🏥 Recent surgery: Doctor's clearance needed\n• 🤰 Pregnancy: Can fly until 36 weeks\n\n**Medical Certificates Required:**\n• ✈️ Recent surgery (within 10 days)\n• 🏥 Serious medical condition\n• 🤰 Pregnancy after 36 weeks\n• 🧑‍⚕️ Traveling with medical equipment\n\n**Carrying Medications:**\n• ✅ Bring in original containers\n• 📝 Keep prescription label visible\n• 💊 Carry-on recommended (not checked)\n• 💉 Needles: Medical certificate helpful\n• 🧴 Liquids over 3.4oz: Medical exemption\n\n**Medical Equipment:**\n• 🦽 Wheelchairs: Free transport\n• 🧑‍🦯 Assistive devices: No charge\n• 💨 Portable oxygen: Advance notice required\n• 💉 Diabetes supplies: Allowed in carry-on\n\n**Oxygen & Respiratory:**\n• ✅ FAA-approved portable oxygen concentrators\n• ❌ Compressed gas cylinders not allowed\n• 📞 Call 48 hours ahead: 1-800-JETBLUE\n\n**Special Assistance:**\nRequest when booking:\n• Wheelchair service\n• Priority boarding\n• Medical clearance\n• Seating accommodations\n\n**Need Help?**\n📞 Special Assistance: 1-800-538-2583\n🌐 jetblue.com/accessibility\n\nAnything else I can help with?"

/-- Canned body of `process_prohibited_items`. -/
def prohibitedItemsText : String :=
  "🚫 **Prohibited & Restricted Items**\n\n**Absolutely Prohibited (Carry-on & Checked):**\n• 💣 Explosives & fireworks\n• 🧨 Flammable liquids/gases\n• ☢️ Radioactive materials\n• ☠️ Toxic/poisonous substances\n• 🔫 Firearms (unless declared & unloaded)\n• 🔪 Large knives & weapons\n\n**Carry-On Restrictions:**\n❌ **NOT Allowed in Carry-On:**\n• Sharp objects over 4 inches\n• Baseball bats, golf clubs\n• Tools over 7 inches\n• Self-defense sprays\n• Liquids over 3.4oz (except medical)\n\n**✅ Allowed in Checked Bags ONLY:**\n• Tools & sporting equipment\n• Liquids over 3.4oz\n• Declared firearms (unloaded, locked)\n\n**Special Items:**\n• 🔋 Spare lithium batteries: Carry-on only\n• 💻 Laptops/tablets: Carry-on recommended\n• 🎮 Gaming devices: Allowed\n• 📱 Phone chargers: Allowed\n• 🪒 Razors: Disposable OK, straight razor NO\n\n**Liquid Rules (3-1-1):**\n• 3.4 ounces (100ml) per container\n• 1 quart-sized clear bag\n• 1 bag per passenger\n\n**Exceptions:**\n• Baby formula/food\n• Medications\n• Breast milk\n\n**Smart Luggage:**\n• 🔋 Battery must be removable\n• Remove battery for checked bags\n\n**When in Doubt:**\n📞 Call: 1-800-JETBLUE\n🌐 jetblue.com/prohibited-items\n🛂 Check TSA.gov for complete list\n\nNeed help with anything else?"

/-- Canned body of `process_sports_music_gear`. -/
def sportsMusicGearText : String :=
  "🎸 **Sports Equipment & Musical Instruments**\n\n**Musical Instruments:**\n\n**Small Instruments (Carry-On):**\n• 🎸 Guitar, violin, trumpet (if fits overhead)\n• 📏 Max: 22\" x 14\" x 9\"\n• 🎫 Counts as your carry-on item\n• 💺 Can buy seat for larger instruments\n\n**Large Instruments (Checked):**\n• 🎹 Keyboard, cello, etc.\n• 💵 Fee: $150 each way\n• 📦 Must be in hard case\n• 📏 Size limits apply\n\n**Sports Equipment:**\n\n**Checked Sports Gear ($50-75 each):**\n• ⛳ Golf clubs (1 bag)\n• 🎿 Skis & snowboards (1 set)\n• 🏄 Surfboards (under 100 linear inches)\n• 🚴 Bicycles (in box/bag)\n• 🏒 Hockey equipment\n• 🏊 Diving equipment\n\n**Special Handling:**\n• ⛳ Golf: Soft/hard case, clubs secured\n• 🎿 Ski: Max 2 pairs per bag\n• 🚴 Bike: Pedals removed, handlebars turned\n• 🏄 Surfboard: Wrapped and padded\n\n**Size & Weight:**\n• 📏 Max 80 linear inches (L+W+H)\n• ⚖️ Max 50 lbs (additional fees if heavier)\n• 📦 Must be properly packaged\n\n**Fees (One Way):**\n• 🎸 Small instrument carry-on: Free\n• 🎹 Large instrument checked: $150\n• ⛳ Sports equipment (1st): $50\n• ⛳ Sports equipment (2nd): $75\n\n**Book Equipment Transport:**\n• 📞 Call when booking: 1-800-JETBLUE\n• 🌐 Or add during online check-in\n• ⏰ At least 48 hours advance notice\n\n**Protection Tips:**\n• 📦 Use hard cases when possible\n• 🏷️ Label with name & phone\n• 📸 Take photos before checking\n• 💼 Consider travel insurance\n\nNeed help booking a flight?"

/-- Canned body of `process_pet_travel`. -/
def petTravelText : String :=
  "\n🐾 **Pet Travel Policy**\n\n**Small Pets in Cabin:**\n• ✅ Small cats and dogs allowed in cabin\n• 💰 Fee: $125 each way\n• 📦 Must fit in carrier under seat (17\"L x 12.5\"W x 8.5\"H)\n• 🎫 Maximum 4 pets per flight\n• ⚠️ Must be at least 4 months old\n• 📝 Reservation required - call JetBlue to book\n\n**Not Allowed:**\n• ❌ Pets in cargo/checked baggage\n• ❌ Emotional support animals (except trained service animals)\n• ❌ Pets on flights over 6 hours\n\n**Requirements:**\n• Health certificate from vet (within 30 days)\n• Pet must remain in carrier entire flight\n• Only 1 pet per carrier\n• Carrier counts as your carry-on item\n\n**Service Animals:**\n• ✅ Trained service dogs allowed free of charge\n• Must provide documentation\n\nWould you like to know anything else about traveling with pets?\n"

/-- `WorkflowEngine.process_children_policy`. -/
def process_children_policy (_env : Env) (_r : NluResult) (_uid _sid : String)
    (st : St) : Option (TurnResult × St) :=
  some (⟨childrenPolicyText, []⟩, st)

/-- `WorkflowEngine.process_complaints`. -/
def process_complaints (_env : Env) (_r : NluResult) (_uid _sid : String)
    (st : St) : Option (TurnResult × St) :=
  some (⟨complaintsText, []⟩, st)

/-- `WorkflowEngine.process_damaged_bag`. -/
def process_damaged_bag (_env : Env) (_r : NluResult) (_uid _sid : String)
    (st : St) : Option (TurnResult × St) :=
  some (⟨damagedBagText, []⟩, st)

/-- `WorkflowEngine.process_missing_bag`. -/
def process_missing_bag (_env : Env) (_r : NluResult) (_uid _sid : String)
    (st : St) : Option (TurnResult × St) :=
  some (⟨missingBagText, []⟩, st)

/-- `WorkflowEngine.process_discounts`. -/
def process_discounts (_env : Env) (_r : NluResult) (_uid _sid : String)
    (st : St) : Option (TurnResult × St) :=
  some (⟨discountsText, [.simple "Book a flight" "book_flight"]⟩, st)

/-- `WorkflowEngine.process_fare_check`. -/
def process_fare_check (_env : Env) (_r : NluResult) (_uid _sid : String)
    (st : St) : Option (TurnResult × St) :=
  some (⟨fareCheckText, [.simple "Book a flight" "book_flight"]⟩, st)

/-- `WorkflowEngine.process_flights_info`. -/
def process_flights_info (_env : Env) (_r : NluResult) (_uid _sid : String)
    (st : St) : Option (TurnResult × St) :=
  some (⟨flightsInfoText,
    [.simple "Check booking" "check_status", .simple "Book flight" "book_flight"]⟩, st)

/-- `WorkflowEngine.process_insurance`. -/
def process_insurance (_env : Env) (_r : NluResult) (_uid _sid : String)
    (st : St) : Option (TurnResult × St) :=
  some (⟨insuranceText, [.simple "Book flight" "book_flight"]⟩, st)

/-- `WorkflowEngine.process_medical_policy`. -/
def process_medical_policy (_env : Env) (_r : NluResult) (_uid _sid : String)
    (st : St) : Option (TurnResult × St) :=
  some (⟨medicalPolicyText, []⟩, st)

/-- `WorkflowEngine.process_prohibited_items`. -/
def process_prohibited_items (_env : Env) (_r : NluResult) (_uid _sid : String)
    (st : St) : Option (TurnResult × St) :=
  some (⟨prohibitedItemsText, []⟩, st)

/-- `WorkflowEngine.process_sports_music_gear`. -/
def process_sports_music_gear (_env : Env) (_r : NluResult) (_uid _sid : String)
    (st : St) : Option (TurnResult × St) :=
  some (⟨sportsMusicGearText, [.simple "Book flight" "book_flight"]⟩, st)

/-- `WorkflowEngine.process_pet_travel`. -/
def process_pet_travel (_env : Env) (_r : NluResult) (_uid _sid : String)
    (st : St) : Option (TurnResult × St) :=
  some (⟨petTravelText, []⟩, st)

/-- `WorkflowEngine.process_baggage_info`. -/
def process_baggage_info (_env : Env) (r : NluResult) (uid sid : String)
    (st : St) : Option (TurnResult × St) :=
  let message := lowerStr r.original_message
  match (get_policy_recommendations "baggage_info").head? with
  | some policy =>
    let (workflow?, st) := get_workflow_state sid uid st
    let needNew : Bool :=
      match workflow? with
      | some w => w.workflow_type != "baggage_info"
      | none => true
    let st :=
      if needNew then
        let (workflow_id, st) := freshUuid st
        save_workflow_state workflow_id sid uid "baggage_info"
          "showing_policy" [] "active" st
      else st
    let extra :=
      if containsSub message "carry" || containsSub message "cabin" then
        "For carry-on bags: Maximum dimensions are 22x14x9 inches (56x36x23 cm).\n\n"
      else if containsSub message "check" || containsSub message "luggage" then
        "For checked bags: Each bag must weigh less than 50 lbs (23 kg).\n\n"
      else if containsSub message "cost" || containsSub message "fee"
          || containsSub message "price" then
        "Checked bag fees: $30 for first bag, $40 for second bag.\n\n"
      else if containsSub message "prohibited" || containsSub message "restricted"
          || containsSub message "not allowed" then
        "⚠️ **Prohibited items** include:\n• Flammable materials\n• Sharp objects in carry-on\n• Liquids over 3.4oz in carry-on\n\n"
      else ""
    some (⟨"**" ++ policy.policy_name ++ "** 🧳\n\n" ++ policy.content ++ "\n\n"
        ++ extra
        ++ "Do you have any specific questions about:\n• Carry-on allowance?\n• Checked baggage fees?\n• Prohibited items?\n• Excess baggage?\nOr would you like help with something else?",
      []⟩, st)
  | none =>
    some (⟨"Let me get you the baggage information...\n\nWhat specifically would you like to know about baggage?",
      []⟩, st)

/-- `WorkflowEngine.process_general_faq`. -/
def process_general_faq (env : Env) (r : NluResult) (uid sid : String)
    (st : St) : Option (TurnResult × St) :=
  let message := lowerStr r.original_message
  if containsSub message "seat" || containsSub message "sitting" then
    process_children_policy env r uid sid st
  else if containsSub message "pet" || containsSub message "animal" then
    process_pet_travel env r uid sid st
  else if containsSub message "bag" || containsSub message "luggage" then
    process_baggage_info env r uid sid st
  else
    some (⟨"I can help you with information about:\n\n✈️ **Flight Operations:**\n• Check booking status\n• Change or cancel flights\n• Seat upgrades\n\n📋 **Policies:**\n• Pet travel\n• Baggage allowance\n• Cancellation policy\n• Children & infant seating\n\n🎫 **Bookings:**\n• Book new flights\n• Modify existing bookings\n\nWhat would you like to know more about?",
      []⟩, st)

/-- The `help` intent's canned reply in `process_message`. -/
def helpText : String :=
  "I'm here to help! Here's what I can do for you:\n\n📋 **Check Bookings**: Say 'check my booking' or 'show booking BK001'\n❌ **Cancel**: Say 'cancel my booking' or 'cancel BK001'\n🔄 **Change Flight**: Say 'change my flight' or 'modify booking'\n💺 **Seat Upgrade**: Say 'upgrade my seat' or 'change seat'\n🧳 **Baggage Info**: Ask 'baggage policy' or 'luggage allowance'\n📋 **Policies**: Ask about 'cancellation policy', 'change fees', etc.\n\nJust talk to me naturally - I'll understand! What would you like to do?"

/-- The unknown-intent fallback reply in `process_message`. -/
def unknownIntentText : String :=
  "I'm not quite sure what you're asking about. Let me help you! 😊\n\nI can assist with:\n✈️ **Flight Management**: Check, cancel, or change bookings\n💺 **Seat Upgrades**: Get better seats\n🧳 **Baggage Info**: Allowances and fees\n📋 **Policies**: Cancellation, changes, refunds\n\nWhat would you like help with today?"

/-- The intent dispatch at the bottom of `process_message` (reached with no
active workflow, or by fall-through from the active-workflow block). The
second `elif intent == 'book_flight'` branch there is unreachable — the
first one catches the intent — and is omitted. -/
def intent_dispatch (env : Env) (r : NluResult) (uid sid : String) (st : St) :
    Option (TurnResult × St) :=
  let intent := r.intent
  if intent == "check_status" then process_booking_check env r uid sid st
  else if intent == "cancel_booking" then process_cancellation env r uid sid st
  else if intent == "change_flight" then process_change_flight env r uid sid st
  else if intent == "seat_upgrade" then process_seat_upgrade env r uid sid st
  else if intent == "book_flight" then process_book_flight env r uid sid st
  else if intent == "cancellation_policy" then
    match (get_policy_recommendations "cancellation_policy").head? with
    | some policy =>
      let (workflow_id, st) := freshUuid st
      let st := save_workflow_state workflow_id sid uid "policy_inquiry"
        "showing_policy" [("policy_type", .s "cancellation")] "active" st
      some (⟨"**" ++ policy.policy_name ++ "** 📋\n\n" ++ policy.content
          ++ "\n\nWould you like to:\n• Cancel an existing booking?\n• Check another policy?\n• Or is there something else I can help with?",
        []⟩, st)
    | none => some (⟨"Let me get that information for you...", []⟩, st)
  else if intent == "baggage_info" then process_baggage_info env r uid sid st
  else if intent == "pet_travel" then process_pet_travel env r uid sid st
  else if intent == "children_policy" then process_children_policy env r uid sid st
  else if intent == "complaints" then process_complaints env r uid sid st
  else if intent == "damaged_bag" then process_damaged_bag env r uid sid st
  else if intent == "missing_bag" then process_missing_bag env r uid sid st
  else if intent == "discounts" then process_discounts env r uid sid st
  else if intent == "fare_check" then process_fare_check env r uid sid st
  else if intent == "flights_info" then process_flights_info env r uid sid st
  else if intent == "insurance" then process_insurance env r uid sid st
  else if intent == "medical_policy" then process_medical_policy env r uid sid st
  else if intent == "prohibited_items" then process_prohibited_items env r uid sid st
  else if intent == "sports_music_gear" then process_sports_music_gear env r uid sid st
  else if intent == "general_faq" then process_general_faq env r uid sid st
  else if intent == "greeting" then
    let bookings := env.api.get_user_bookings uid st.bookings
    if !bookings.isEmpty then
      some (⟨"Hello! 👋 Welcome back!\n\nI can see you have "
          ++ toString bookings.length
          ++ " active booking(s). I'm here to help you with:\n• Check your booking details\n• Cancel or modify bookings\n• Seat upgrades\n• Baggage information\n• Policy questions\n\nWhat would you like to do today?",
        []⟩, st)
    else
      some (⟨"Hello! 👋 Welcome to our airline customer service.\n\nI'm here to assist you with:\n• Checking booking status\n• Canceling bookings\n• Changing flights\n• Seat upgrades\n• Baggage and policy information\n\nHow can I help you today?",
        []⟩, st)
  else if intent == "help" then some (⟨helpText, []⟩, st)
  else some (⟨unknownIntentText, []⟩, st)

/-- The informational-intent list at step 8 of `process_message` (same 15
members as `informational_intents`, in the order written there). -/
def pm_informational_intents : List String :=
  ["pet_travel", "children_policy", "general_faq", "baggage_info",
   "cancellation_policy", "complaints", "damaged_bag", "missing_bag",
   "discounts", "fare_check", "flights_info", "insurance", "medical_policy",
   "prohibited_items", "sports_music_gear"]

/-- The `relevant_data_provided` computation of `process_message`
(lines checking whether the turn carries data for the current step). -/
def relevant_data_check (workflow_type current_step : String)
    (entities : Entities) (message : String) : Bool :=
  if workflow_type == "change_flight" && current_step == "waiting_for_new_date" then
    truthy entities.date || hasDigit message
  else if workflow_type == "cancel_booking" && current_step == "confirm" then
    anyIn ["yes", "no", "confirm", "cancel"] (lowerStr message)
  else if workflow_type == "book_flight" && current_step == "collecting_details" then
    truthy entities.origin || truthy entities.destination
      || truthy entities.date || truthy entities.passenger_name
      || hasDigit message
  else
    containsSub current_step "waiting_for_id" && truthy entities.booking_id

/-- The `clear_switch_phrase` list of `process_message`. -/
def clear_switch_phrases : List String :=
  ["instead", "rather", "actually", "no ", "change to", "switch to",
   "i want to", "i need to", "let me", "help me"]

/-- `WorkflowEngine.process_message`, the dispatcher (`ProcessTurn`).
Fuel-indexed: the source calls itself recursively, and `none` reports fuel
exhaustion (or a crash in a callee). Blocks that Python falls through are
continuations `step3` … `step9`, each taking the state produced so far. -/
def process_message (env : Env) : Nat → NluResult → String → String → St →
    Option (TurnResult × St)
  | 0, _, _, _, _ => none
  | fuel + 1, r, uid, sid, st =>
    let intent := r.intent
    let message := r.original_message
    match handle_irrelevant_query message with
    | some resp => some (resp, st)
    | none =>
      let (workflow?, st) := get_workflow_state sid uid st
      match workflow? with
      | none => intent_dispatch env r uid sid st
      | some workflow =>
        if workflow.status == "active" then
          let workflow_type := workflow.workflow_type
          let current_step := workflow.current_step
          let entities := r.entities
          let ml := lowerStr message
          let relevant_data_provided :=
            relevant_data_check workflow_type current_step entities message
          let step9 : St → Option (TurnResult × St) := fun st =>
            if workflow_type == "cancel_booking" then
              process_cancellation env r uid sid st
            else if workflow_type == "change_flight" then
              process_change_flight env r uid sid st
            else if workflow_type == "seat_upgrade" then
              process_seat_upgrade env r uid sid st
            else if workflow_type == "check_status" then
              if containsSub ml "cancel" then
                let bid := sdGetStr workflow.state_data "booking_id"
                let st := complete_workflow workflow.workflow_id sid st
                process_cancellation env { r with entities := { booking_id := bid } } uid sid st
              else if containsSub ml "change" || containsSub ml "modify" then
                let bid := sdGetStr workflow.state_data "booking_id"
                let st := complete_workflow workflow.workflow_id sid st
                process_change_flight env { r with entities := { booking_id := bid } } uid sid st
              else if containsSub ml "upgrade" || containsSub ml "seat" then
                let bid := sdGetStr workflow.state_data "booking_id"
                let st := complete_workflow workflow.workflow_id sid st
                process_seat_upgrade env { r with entities := { booking_id := bid } } uid sid st
              else if containsSub ml "baggage" || containsSub ml "luggage" then
                let st := complete_workflow workflow.workflow_id sid st
                process_baggage_info env r uid sid st
              else if anyIn ["fine", "good", "okay", "thanks", "all set"] ml then
                let st := complete_workflow workflow.workflow_id sid st
                some (⟨"Great! I'm glad everything looks good. ✈️\n\nIf you need anything else before your flight, just let me know. Have a wonderful trip! 🌟",
                  []⟩, st)
              else intent_dispatch env r uid sid st
            else if workflow_type == "baggage_info" then
              if containsSub ml "carry" || containsSub ml "cabin" then
                some (⟨"✈️ **Carry-on Allowance**:\n\n• 1 carry-on bag (22x14x9 inches / 56x36x23 cm)\n• 1 personal item (purse, laptop bag, etc.)\n• Must fit in overhead bin or under seat\n\nAnything else you'd like to know about baggage?",
                  []⟩, st)
              else if containsSub ml "check" || containsSub ml "luggage" then
                some (⟨"🧳 **Checked Baggage**:\n\n• First bag: $30\n• Second bag: $40\n• Maximum weight: 50 lbs (23 kg) per bag\n• Maximum dimensions: 62 inches (158 cm) total\n\nNeed help with anything else?",
                  []⟩, st)
              else if containsSub ml "prohibited" || containsSub ml "not allowed" then
                some (⟨"⚠️ **Prohibited/Restricted Items**:\n\n**Cannot carry at all:**\n• Explosives, flammable items\n• Weapons (except when checked and declared)\n\n**Carry-on restrictions:**\n• Liquids over 3.4oz (100ml)\n• Sharp objects (scissors, knives)\n• Tools\n\nThese items may be allowed in checked baggage with restrictions.\n\nAny other questions?",
                  []⟩, st)
              else if containsSub ml "excess" || containsSub ml "overweight"
                  || containsSub ml "extra" then
                some (⟨"💼 **Excess Baggage Fees**:\n\n• Third+ bag: $150 per bag\n• Overweight (50-70 lbs): $100 per bag\n• Oversized (63-80 inches): $200 per bag\n\nTip: Consider shipping heavy items if you have many bags!\n\nWhat else can I help with?",
                  []⟩, st)
              else if anyIn ["thanks", "that's all", "nothing", "no"] ml then
                let st := complete_workflow workflow.workflow_id sid st
                some (⟨"Perfect! If you have any other questions about baggage or your flight, feel free to ask anytime. Have a great trip! ✈️",
                  []⟩, st)
              else intent_dispatch env r uid sid st
            else intent_dispatch env r uid sid st
          let step8 : St → Option (TurnResult × St) := fun st =>
            if anyIn ["exit", "quit", "stop", "cancel this", "start over", "forget it"] ml then
              let st := complete_workflow workflow.workflow_id sid st
              some (⟨"No problem! I've cancelled the current process. 👍\n\nWhat would you like to do now? I can help you with:\n• Check booking status\n• Cancel a booking\n• Change flight dates\n• Upgrade seats\n• Get policy information",
                []⟩, st)
            else step9 st
          let step7 : St → Option (TurnResult × St) := fun st =>
            if pm_informational_intents.contains intent then
              process_message env fuel r uid sid st
            else step8 st
          let step6 : St → Option (TurnResult × St) := fun st =>
            if ["cancel_booking", "check_status", "change_flight", "seat_upgrade"].contains intent
                && intent ≠ workflow_type
                && !containsSub workflow_type (intent ++ "_") then
              let has_booking_id := entities.booking_id.isSome
              let clear_switch_phrase := anyIn clear_switch_phrases ml
              if has_booking_id || clear_switch_phrase then
                let st := complete_workflow workflow.workflow_id sid st
                process_message env fuel r uid sid st
              else
                some (⟨"I see you're currently in the middle of a "
                    ++ replaceChar '_' ' ' workflow_type
                    ++ " process. Would you like to:\n• Continue with "
                    ++ replaceChar '_' ' ' workflow_type ++ "?\n• Switch to "
                    ++ replaceChar '_' ' ' intent
                    ++ "?\n\nJust let me know what you'd prefer!",
                  []⟩, st)
            else step7 st
          let step5 : St → Option (TurnResult × St) := fun st =>
            if relevant_data_provided then
              if workflow_type == "cancel_booking" then
                process_cancellation env r uid sid st
              else if workflow_type == "change_flight" then
                process_change_flight env r uid sid st
              else if workflow_type == "seat_upgrade" then
                process_seat_upgrade env r uid sid st
              else if workflow_type == "book_flight" then
                process_book_flight env r uid sid st
              else step6 st
            else step6 st
          let step4 : St → Option (TurnResult × St) := fun st =>
            if anyIn ["continue", "yes", "proceed", "go ahead"] ml then
              if workflow_type == "cancel_booking" then
                process_cancellation env r uid sid st
              else if workflow_type == "change_flight" then
                process_change_flight env r uid sid st
              else if workflow_type == "seat_upgrade" then
                process_seat_upgrade env r uid sid st
              else if workflow_type == "check_status" then
                process_booking_check env r uid sid st
              else step5 st
            else step5 st
          let step3 : St → Option (TurnResult × St) := fun st =>
            if anyIn ["switch", "change to", "do", "start"] ml then
              let st := complete_workflow workflow.workflow_id sid st
              if ["cancel_booking", "check_status", "change_flight",
                  "seat_upgrade", "book_flight"].contains intent then
                process_message env fuel r uid sid st
              else if containsSub ml "cancel" then
                process_cancellation env { r with intent := "cancel_booking" } uid sid st
              else if containsSub ml "change" || containsSub ml "modify" then
                process_change_flight env { r with intent := "change_flight" } uid sid st
              else if containsSub ml "upgrade" || containsSub ml "seat" then
                process_seat_upgrade env { r with intent := "seat_upgrade" } uid sid st
              else if containsSub ml "book" then
                process_book_flight env { r with intent := "book_flight" } uid sid st
              else step4 st
            else step4 st
          if intent == "book_flight"
              && anyIn ["book a new", "book new", "new flight", "need to book"] ml then
            let st := complete_workflow workflow.workflow_id sid st
            process_message env fuel r uid sid st
          else step3 st
        else intent_dispatch env r uid sid st
termination_by structural fuel => fuel

/-! Fixtures used by concrete runs and witnesses. -/

/-- The seeded booking `BK001` of `database.py`. -/
def bk001 : Booking :=
  ⟨"BK001", "user123", "AA101", "John Doe", "2025-11-15", "JFK", "LAX", "12A", "confirmed"⟩

/-- Environment fixture: the mock backend with fixed random draws, a stub
NLU, and 2026-10-12 as "today". -/
def testEnv : Env :=
  { api := mockApi 300 100
    nlu := fun m => ⟨"general_faq", {}, m⟩
    today := (2026, 10, 12)
    sampleServices := [] }

/-- An active cancellation workflow waiting for a booking id. -/
def wfCancelWaiting : WorkflowRow :=
  ⟨"wf-9", "user123", "s2", "cancel_booking", "waiting_for_id", [], "active", 50⟩

/-- State with `wfCancelWaiting` active and cached (entry unexpired). -/
def stCancelWaiting : St :=
  { db := [wfCancelWaiting]
    cache := [⟨wkey "s2", 700, wfCancelWaiting.view⟩]
    bookings := [bk001]
    now := 100
    nextUuid := 0
    createCalls := [] }

/-- A pet-policy question turn (informational intent). -/
def rPet : NluResult := ⟨"pet_travel", {}, "what is your pet policy"⟩

/-- Empty-session state over the seeded booking. -/
def stEmpty : St :=
  { db := [], cache := [], bookings := [bk001], now := 100,
    nextUuid := 0, createCalls := [] }

/-- Turn 1 of the C1 run: a cancellation-policy question. -/
def rPolicy : NluResult := ⟨"cancellation_policy", {}, "what is your cancellation policy"⟩

/-- Turn 2 of the C1 run: a booking request without explicit new-booking phrasing. -/
def rBook : NluResult := ⟨"book_flight", {}, "book me a flight from jfk"⟩

/-- An active flight-change workflow waiting for the new date. -/
def wfChangeWaiting : WorkflowRow :=
  ⟨"wf-9", "user123", "s6", "change_flight", "waiting_for_new_date",
   [("booking_id", .s "BK001")], "active", 50⟩

/-- State with `wfChangeWaiting` active and cached. -/
def stChangeWaiting : St :=
  { db := [wfChangeWaiting]
    cache := [⟨wkey "s6", 700, wfChangeWaiting.view⟩]
    bookings := [bk001]
    now := 100
    nextUuid := 0
    createCalls := [] }

/-- An active book-flight workflow with no slot collected yet. -/
def wfBook : WorkflowRow :=
  ⟨"wf-9", "u", "s7", "book_flight", "collecting_details", [], "active", 50⟩

/-- State with `wfBook` active and cached. -/
def stBook : St :=
  { db := [wfBook]
    cache := [⟨wkey "s7", 700, wfBook.view⟩]
    bookings := [bk001]
    now := 100
    nextUuid := 0
    createCalls := [] }

/-- A cancellation workflow at the confirm step for a nonexistent booking. -/
def wfCancelConfirmBad : WorkflowRow :=
  ⟨"wf-9", "u", "s8", "cancel_booking", "confirm",
   [("booking_id", .s "BK999")], "active", 50⟩

/-- State with `wfCancelConfirmBad` active and cached. -/
def stCancelConfirmBad : St :=
  { db := [wfCancelConfirmBad]
    cache := [⟨wkey "s8", 700, wfCancelConfirmBad.view⟩]
    bookings := [bk001]
    now := 100
    nextUuid := 0
    createCalls := [] }

/-- A seat-upgrade workflow awaiting a seat choice, pointing at a
nonexistent booking. -/
def wfUpgradeBad : WorkflowRow :=
  ⟨"wf-9", "u", "s9", "seat_upgrade", "waiting_for_seat_choice",
   [("booking_id", .s "BK999"), ("available_seats", .ls ["12B", "15C"])],
   "active", 50⟩

/-- State with `wfUpgradeBad` active and cached. -/
def stUpgradeBad : St :=
  { db := [wfUpgradeBad]
    cache := [⟨wkey "s9", 700, wfUpgradeBad.view⟩]
    bookings := [bk001]
    now := 100
    nextUuid := 0
    createCalls := [] }

/-- A backend whose change-flight operation reports failure (the spec fixes
only the collaborator's boundary; this exercises the `success:false` path). -/
def failChangeApi : Api :=
  { mockApi 300 100 with
    change_flight := fun bid _fn _d bs =>
      ({ success := false, message := "Change failed for " ++ optStr bid }, bs) }

/-- `testEnv` with the failing change backend. -/
def failChangeEnv : Env := { testEnv with api := failChangeApi }

/-- A book-flight workflow that has already collected origin and destination. -/
def wfBookPartial : WorkflowRow :=
  ⟨"wf-9", "u", "s10", "book_flight", "collecting_details",
   [("origin", .s "JFK"), ("destination", .s "MIA")], "active", 50⟩

/-- State with `wfBookPartial` active and cached. -/
def stBookPartial : St :=
  { db := [wfBookPartial]
    cache := [⟨wkey "s10", 700, wfBookPartial.view⟩]
    bookings := [bk001]
    now := 100
    nextUuid := 0
    createCalls := [] }

/-- A continuation turn supplying the remaining two booking slots. -/
def rBookFinish : NluResult :=
  ⟨"book_flight",
   { date := some "2026-12-25", passenger_name := some "Jane Roe" },
   "2026-12-25 for jane roe"⟩

/-- A continuation turn completing the slots with a past (invalid) date. -/
def rBadDate : NluResult :=
  ⟨"book_flight",
   { date := some "2020-01-01", passenger_name := some "Jane Roe" },
   "2020-01-01 jane roe"⟩

/-! Helper lemmas about the store, the cache and the slot map. -/

/-- `get_workflow_state` is a read: it can only repopulate the cache. -/
theorem get_workflow_state_frame (sid uid : String) (st : St) :
    ((get_workflow_state sid uid st).2).db = st.db ∧
    ((get_workflow_state sid uid st).2).bookings = st.bookings ∧
    ((get_workflow_state sid uid st).2).createCalls = st.createCalls ∧
    ((get_workflow_state sid uid st).2).now = st.now := by
  unfold get_workflow_state
  rcases hc : cacheGet st.cache st.now (wkey sid) with ⟨v?, c'⟩
  cases v? with
  | some v => simp [hc]
  | none =>
    simp only [hc]
    rcases hl : latestActiveRow ((st.db).filter fun r =>
        r.session_id == sid && r.user_id == uid && r.status == "active") with _ | row
    · simp [hl]
    · simp [hl]

/-- A deleted cache key is not found again. -/
theorem find?_cacheDelete (c : List CacheEntry) (k : String) :
    (cacheDelete c k).find? (fun e => e.key == k) = none := by
  induction c with
  | nil => rfl
  | cons e t ih =>
    unfold cacheDelete at ih ⊢
    rw [List.filter_cons]
    by_cases h : e.key = k
    · rw [if_neg (by simp [h])]
      exact ih
    · rw [if_pos (by simpa using h)]
      rw [List.find?_cons_of_neg _ (by simpa using h)]
      exact ih

/-- `SmartCache.get` misses after `SmartCache.delete` on the same key. -/
theorem cacheGet_cacheDelete (c : List CacheEntry) (now : Nat) (k : String) :
    cacheGet (cacheDelete c k) now k = (none, cacheDelete c k) := by
  unfold cacheGet
  rw [find?_cacheDelete]

/-- After `complete_workflow`, no cache entry for the session remains. -/
theorem complete_workflow_cache (wid sid : String) (st : St) :
    (∀ e ∈ (complete_workflow wid sid st).cache, e.key ≠ wkey sid) ∧
    (cacheGet (complete_workflow wid sid st).cache
      (complete_workflow wid sid st).now (wkey sid)).1 = none := by
  constructor
  · intro e he
    unfold complete_workflow cacheDelete at he
    simp only [List.mem_filter] at he
    simpa using he.2
  · show (cacheGet (cacheDelete st.cache (wkey sid)) (st.now + 1) (wkey sid)).1 = none
    rw [cacheGet_cacheDelete]

/-- After `complete_workflow wid`, every row with that id is completed, and
every other row is untouched. -/
theorem complete_workflow_db (wid sid : String) (st : St) :
    (∀ r ∈ (complete_workflow wid sid st).db, r.workflow_id = wid →
      r.status = "completed") ∧
    (∀ r ∈ st.db, r.workflow_id ≠ wid → r ∈ (complete_workflow wid sid st).db) := by
  constructor
  · intro r hr hid
    unfold complete_workflow at hr
    simp only [List.mem_map] at hr
    obtain ⟨x, _, hx⟩ := hr
    by_cases h : x.workflow_id = wid
    · rw [if_pos (by simpa using h)] at hx
      rw [← hx]
    · rw [if_neg (by simpa using h)] at hx
      exact absurd (hx ▸ hid) h
  · intro r hr hid
    unfold complete_workflow
    simp only [List.mem_map]
    exact ⟨r, hr, by rw [if_neg (by simpa using hid)]⟩

/-- In-place update finds the new value (key present). -/
theorem find?_upd_same (k : String) (v : Val) :
    ∀ sd : StateData, sd.any (fun p => p.1 == k) = true →
      (sd.map (fun p => if p.1 == k then (k, v) else p)).find?
        (fun p => p.1 == k) = some (k, v)
  | [], h => by simp at h
  | p :: t, h => by
    rw [List.map_cons]
    by_cases hp : p.1 = k
    · rw [if_pos (by simpa using hp)]
      rw [List.find?_cons_of_pos _ (by simp)]
    · rw [if_neg (by simpa using hp)]
      rw [List.find?_cons_of_neg _ (by simpa using hp)]
      apply find?_upd_same k v t
      simp only [List.any_cons, Bool.or_eq_true] at h
      rcases h with h1 | h2
      · exact absurd (by simpa using h1) hp
      · exact h2

/-- Appending a fresh key finds the new value (key absent). -/
theorem find?_append_new (k : String) (v : Val) :
    ∀ sd : StateData, sd.any (fun p => p.1 == k) = false →
      (sd ++ [(k, v)]).find? (fun p => p.1 == k) = some (k, v)
  | [], _ => by
    rw [List.nil_append]
    rw [List.find?_cons_of_pos _ (by simp)]
  | p :: t, h => by
    simp only [List.any_cons, Bool.or_eq_false_iff] at h
    rw [List.cons_append]
    rw [List.find?_cons_of_neg _ (by simpa using h.1)]
    exact find?_append_new k v t h.2

/-- In-place update of key `k` does not change lookups of `k' ≠ k`. -/
theorem find?_upd_other (k k' : String) (v : Val) (h : k' ≠ k) :
    ∀ sd : StateData,
      (sd.map (fun p => if p.1 == k then (k, v) else p)).find?
        (fun p => p.1 == k') = sd.find? (fun p => p.1 == k')
  | [] => rfl
  | q :: t => by
    rw [List.map_cons]
    by_cases hq : q.1 = k
    · rw [if_pos (by simpa using hq)]
      rw [List.find?_cons_of_neg _ (by simpa using fun hh => h hh.symm)]
      rw [List.find?_cons_of_neg _ (by simp [hq]; exact fun hh => h hh.symm)]
      exact find?_upd_other k k' v h t
    · rw [if_neg (by simpa using hq)]
      cases hqe : (q.1 == k') with
      | true =>
        rw [List.find?_cons_of_pos (a := q) _ hqe,
            List.find?_cons_of_pos (a := q) _ hqe]
      | false =>
        rw [List.find?_cons_of_neg (a := q) _ (by simp [hqe]),
            List.find?_cons_of_neg (a := q) _ (by simp [hqe])]
        exact find?_upd_other k k' v h t

/-- Appending key `k` does not change lookups of `k' ≠ k`. -/
theorem find?_append_other (k k' : String) (v : Val) (h : k' ≠ k) :
    ∀ sd : StateData,
      (sd ++ [(k, v)]).find? (fun p => p.1 == k') = sd.find? (fun p => p.1 == k')
  | [] => by
    rw [List.nil_append]
    rw [List.find?_cons_of_neg _ (by simpa using fun hh => h hh.symm)]
  | q :: t => by
    rw [List.cons_append]
    cases hqe : (q.1 == k') with
    | true =>
      rw [List.find?_cons_of_pos (a := q) _ hqe,
          List.find?_cons_of_pos (a := q) _ hqe]
    | false =>
      rw [List.find?_cons_of_neg (a := q) _ (by simp [hqe]),
          List.find?_cons_of_neg (a := q) _ (by simp [hqe])]
      exact find?_append_other k k' v h t

/-- Reading back the key just set. -/
theorem sdGet_sdSet_same (sd : StateData) (k : String) (v : Val) :
    sdGet (sdSet sd k v) k = v := by
  unfold sdSet
  cases h : sd.any (fun p => p.1 == k) with
  | true =>
    simp only [h, if_true]
    unfold sdGet
    rw [find?_upd_same k v sd h]
  | false =>
    simp only [h, Bool.false_eq_true, if_false]
    unfold sdGet
    rw [find?_append_new k v sd h]

/-- Setting one key leaves every other key's value unchanged. -/
theorem sdGet_sdSet_other (sd : StateData) (k k' : String) (v : Val)
    (h : k' ≠ k) : sdGet (sdSet sd k v) k' = sdGet sd k' := by
  unfold sdSet
  cases ha : sd.any (fun p => p.1 == k) with
  | true =>
    simp only [ha, if_true]
    unfold sdGet
    rw [find?_upd_other k k' v h sd]
  | false =>
    simp only [ha, Bool.false_eq_true, if_false]
    unfold sdGet
    rw [find?_append_other k k' v h sd]

/-- A Bool that is not true is false. -/
theorem bool_eq_false {b : Bool} (h : ¬ b = true) : b = false := by
  cases b
  · rfl
  · exact absurd rfl h

/-- Conditional set of another key never changes a lookup. -/
theorem sdGet_ite_sdSet_other (b : Bool) (sd : StateData) (k k' : String)
    (v : Val) (h : k' ≠ k) :
    sdGet (if b then sdSet sd k v else sd) k' = sdGet sd k' := by
  cases b
  · rfl
  · exact sdGet_sdSet_other sd k k' v h

/-- One slot of the merge block: the written-back value is the entity when
it is truthy, the prior value otherwise. -/
theorem sdGetStr_merge_core (ev old : Option String) (sd : StateData)
    (k : String) (hold : sdGetStr sd k = old) :
    sdGetStr (if truthy (pyOr ev old) then
        sdSet sd k (.s (optStr (pyOr ev old))) else sd) k
      = (if truthy ev then ev else old) := by
  unfold pyOr
  cases hev : truthy ev with
  | true =>
    simp only [hev, if_true]
    unfold sdGetStr
    rw [sdGet_sdSet_same]
    cases ev with
    | none => simp [truthy] at hev
    | some a => rfl
  | false =>
    simp only [hev, Bool.false_eq_true, if_false]
    cases ho : truthy old with
    | false =>
      simp only [ho, Bool.false_eq_true, if_false]
      exact hold
    | true =>
      simp only [ho, if_true]
      unfold sdGetStr
      rw [sdGet_sdSet_same]
      cases old with
      | none => simp [truthy] at ho
      | some a => rfl

/-- Reading through a conditional set, stated for `sdGetStr`. -/
theorem sdGetStr_ite_sdSet_other (b : Bool) (sd : StateData) (k k' : String)
    (v : Val) (h : k' ≠ k) :
    sdGetStr (if b then sdSet sd k v else sd) k' = sdGetStr sd k' := by
  unfold sdGetStr
  rw [sdGet_ite_sdSet_other b sd k k' v h]

/-- Per-slot characterisation of the merge block: each of the four slots is
overwritten by the turn's entity exactly when that entity is truthy, and
otherwise keeps its prior value. -/
theorem merge_slot_data_char (e : Entities) (sd : StateData) :
    sdGetStr (merge_slot_data e sd) "origin"
      = (if truthy e.origin then e.origin else sdGetStr sd "origin") ∧
    sdGetStr (merge_slot_data e sd) "destination"
      = (if truthy e.destination then e.destination else sdGetStr sd "destination") ∧
    sdGetStr (merge_slot_data e sd) "date"
      = (if truthy e.date then e.date else sdGetStr sd "date") ∧
    sdGetStr (merge_slot_data e sd) "passenger_name"
      = (if truthy e.passenger_name then e.passenger_name
         else sdGetStr sd "passenger_name") := by
  unfold merge_slot_data
  simp only []
  refine ⟨?_, ?_, ?_, ?_⟩
  · rw [sdGetStr_ite_sdSet_other _ _ _ _ _ (by decide),
        sdGetStr_ite_sdSet_other _ _ _ _ _ (by decide),
        sdGetStr_ite_sdSet_other _ _ _ _ _ (by decide)]
    exact sdGetStr_merge_core e.origin (sdGetStr sd "origin") sd "origin" rfl
  · rw [sdGetStr_ite_sdSet_other _ _ _ _ _ (by decide),
        sdGetStr_ite_sdSet_other _ _ _ _ _ (by decide)]
    exact sdGetStr_merge_core e.destination (sdGetStr sd "destination") _
      "destination"
      (sdGetStr_ite_sdSet_other _ _ _ _ _ (by decide))
  · rw [sdGetStr_ite_sdSet_other _ _ _ _ _ (by decide)]
    exact sdGetStr_merge_core e.date (sdGetStr sd "date") _ "date"
      (by
        rw [sdGetStr_ite_sdSet_other _ _ _ _ _ (by decide),
            sdGetStr_ite_sdSet_other _ _ _ _ _ (by decide)])
  · exact sdGetStr_merge_core e.passenger_name (sdGetStr sd "passenger_name")
      _ "passenger_name"
      (by
        rw [sdGetStr_ite_sdSet_other _ _ _ _ _ (by decide),
            sdGetStr_ite_sdSet_other _ _ _ _ _ (by decide),
            sdGetStr_ite_sdSet_other _ _ _ _ _ (by decide)])

/-- The missing-slot prompt items always appear in the fixed source order
departure city, destination city, travel date, passenger name. -/
theorem missing_slots_sublist (sd : StateData) :
    List.Sublist (missing_slots sd)
      ["departure city", "destination city", "travel date", "passenger name"] := by
  unfold missing_slots
  have sub : ∀ (b : Bool) (x : String), List.Sublist (if b then [x] else []) [x] := by
    intro b x
    cases b <;> simp
  exact (((sub _ _).append (sub _ _)).append (sub _ _)).append (sub _ _)

/-- No slot is reported missing exactly when all four are truthy. -/
theorem missing_slots_eq_nil (sd : StateData) :
    (missing_slots sd = []) ↔
      (valTruthy (sdGet sd "origin") = true ∧
       valTruthy (sdGet sd "destination") = true ∧
       valTruthy (sdGet sd "date") = true ∧
       valTruthy (sdGet sd "passenger_name") = true) := by
  unfold missing_slots
  cases valTruthy (sdGet sd "origin") <;>
    cases valTruthy (sdGet sd "destination") <;>
      cases valTruthy (sdGet sd "date") <;>
        cases valTruthy (sdGet sd "passenger_name") <;> simp

/-! ## C3: `validate_date` -/

/-- C3. `validate_date` accepts exactly the well-formed dates strictly after
today and at most 365 days out; `"2025-02-29"` is rejected with the leap-year
message (2025 is not leap); `"2028-02-29"` parses (2028 is leap) and is
accepted whenever it lies in the 365-day window after today; a bad month, an
out-of-bounds day and Feb 29 of a non-leap year produce three distinct
corrective messages. -/
theorem validate_date_spec :
    (∀ today ymd s, parseDateYMD s = some ymd →
      ((validate_date today s).1 = true ↔
        dayNum today < dayNum ymd ∧ dayNum ymd ≤ dayNum today + 365)) ∧
    (∀ today, validate_date today "2025-02-29" =
      (false, "⚠️ 2025 is not a leap year!\nFeb 2025 has only 28 days.")) ∧
    (parseDateYMD "2028-02-29" = some (2028, 2, 29) ∧
      ∀ today, dayNum today < dayNum (2028, 2, 29) →
        dayNum (2028, 2, 29) ≤ dayNum today + 365 →
        (validate_date today "2028-02-29").1 = true) ∧
    (∀ today, validate_date today "2025-13-05" =
        (false, "⚠️ Invalid month: 13\nMonth must be 01-12.") ∧
      validate_date today "2025-04-31" =
        (false, "⚠️ Invalid day: 31 for Apr\n\nApr has only 30 days!") ∧
      "⚠️ Invalid month: 13\nMonth must be 01-12."
          ≠ "⚠️ Invalid day: 31 for Apr\n\nApr has only 30 days!" ∧
      "⚠️ Invalid month: 13\nMonth must be 01-12."
          ≠ "⚠️ 2025 is not a leap year!\nFeb 2025 has only 28 days." ∧
      "⚠️ Invalid day: 31 for Apr\n\nApr has only 30 days!"
          ≠ "⚠️ 2025 is not a leap year!\nFeb 2025 has only 28 days.") := by
  refine ⟨?_, ?_, ⟨rfl, ?_⟩, ?_⟩
  · intro today ymd s hp
    unfold validate_date
    rw [hp]
    dsimp only
    split
    · rename_i hle
      simp only [Bool.false_eq_true, false_iff, not_and, not_le]
      omega
    · split
      · rename_i hgt
        simp only [Bool.false_eq_true, false_iff, not_and, not_le]
        omega
      · rename_i hle hgt
        simp only [true_iff]
        omega
  · intro today
    rfl
  · intro today h1 h2
    unfold validate_date
    rw [show parseDateYMD "2028-02-29" = some (2028, 2, 29) from rfl]
    dsimp only
    rw [if_neg (by omega), if_neg (by omega)]
  · intro today
    exact ⟨rfl, rfl, by decide, by decide, by decide⟩

/-- Witness for C3 at concrete inputs: today = 2026-10-12 accepts 2026-12-25
(in window) iff the window predicate holds, and today = 2027-06-15 accepts
2028-02-29. -/
theorem validate_date_spec_witness :
    ((validate_date (2026, 10, 12) "2026-12-25").1 = true ↔
      dayNum (2026, 10, 12) < dayNum (2026, 12, 25) ∧
        dayNum (2026, 12, 25) ≤ dayNum (2026, 10, 12) + 365) ∧
    (validate_date (2027, 6, 15) "2028-02-29").1 = true :=
  ⟨validate_date_spec.1 (2026, 10, 12) (2026, 12, 25) "2026-12-25" rfl,
   validate_date_spec.2.2.1.2 (2027, 6, 15) (by decide) (by decide)⟩

/-! ## C10: irrelevant-keyword short-circuit -/

/-- C10. A message containing any keyword of the fixed irrelevant list makes
`process_message` return the fixed out-of-scope reply with the state
untouched — no workflow state is read or written — for every intent and
every state, in particular for in-scope informational intents and while a
workflow is mid-task. -/
theorem irrelevant_short_circuit (env : Env) (n : Nat) (r : NluResult)
    (uid sid : String) (st : St)
    (h : anyIn irrelevant_patterns (lowerStr r.original_message) = true) :
    process_message env (n + 1) r uid sid st =
      some (⟨outOfScopeResponse, []⟩, st) := by
  unfold process_message handle_irrelevant_query
  simp only [h, if_true]

/-- Witness for C10: a `sports_music_gear` question mentioning "music",
with a cancellation workflow mid-task, is answered out-of-scope and the
state (including the active workflow) is untouched. -/
theorem irrelevant_short_circuit_witness :
    anyIn irrelevant_patterns
        (lowerStr "is music allowed on flights") = true ∧
    process_message testEnv 5
        ⟨"sports_music_gear", {}, "is music allowed on flights"⟩
        "user123" "s2" stCancelWaiting =
      some (⟨outOfScopeResponse, []⟩, stCancelWaiting) :=
  ⟨by decide,
   irrelevant_short_circuit testEnv 4
     ⟨"sports_music_gear", {}, "is music allowed on flights"⟩
     "user123" "s2" stCancelWaiting (by decide)⟩

/-! ## C7: saving as completed invalidates the cache -/

/-- C7. The only operation that persists status `completed`
(`complete_workflow`; every `save_workflow_state` call site passes the
default `active`) deletes the session's cache entry — the miss is visible
both structurally and through `SmartCache.get` — and flips the persisted
row; and a `save_workflow_state` leaves the cache entry equal to the state
just persisted, so the cache never holds a stale entry that disagrees with
the store. -/
theorem completed_save_invalidates_cache :
    (∀ (st : St) (wid sid : String),
      (∀ e ∈ (complete_workflow wid sid st).cache, e.key ≠ wkey sid) ∧
      (cacheGet (complete_workflow wid sid st).cache
        (complete_workflow wid sid st).now (wkey sid)).1 = none ∧
      (∀ r ∈ (complete_workflow wid sid st).db, r.workflow_id = wid →
        r.status = "completed")) ∧
    (∀ (st : St) (wid sid uid wtype step : String) (sd : StateData) (status : String),
      ∀ e ∈ (save_workflow_state wid sid uid wtype step sd status st).cache,
        e.key = wkey sid → e.val = ⟨wid, uid, sid, wtype, step, sd, status⟩) := by
  constructor
  · intro st wid sid
    exact ⟨(complete_workflow_cache wid sid st).1,
           (complete_workflow_cache wid sid st).2,
           (complete_workflow_db wid sid st).1⟩
  · intro st wid sid uid wtype step sd status e he hk
    unfold save_workflow_state cacheSet at he
    rcases List.mem_append.mp he with hin | hnew
    · unfold cacheDelete at hin
      simp only [List.mem_filter] at hin
      exact absurd hk (by simpa using hin.2)
    · simp only [List.mem_singleton] at hnew
      rw [hnew]

/-! ## C6: complete then read returns none -/

/-- C6. If the session's only active rows are the completed workflow's, then
after `complete_workflow` a `get_workflow_state` returns none: the cache
entry is gone and the persisted row reads `completed`, so neither path
yields an active workflow. -/
theorem complete_then_get_none (st : St) (wid sid uid : String)
    (h : ∀ r ∈ st.db, r.session_id = sid → r.user_id = uid →
      r.status = "active" → r.workflow_id = wid) :
    (get_workflow_state sid uid (complete_workflow wid sid st)).1 = none ∧
    (∀ e ∈ (complete_workflow wid sid st).cache, e.key ≠ wkey sid) ∧
    (∀ r ∈ (complete_workflow wid sid st).db, r.workflow_id = wid →
      r.status = "completed") := by
  refine ⟨?_, (complete_workflow_cache wid sid st).1,
    (complete_workflow_db wid sid st).1⟩
  unfold get_workflow_state
  have hc' : cacheGet (complete_workflow wid sid st).cache
      (complete_workflow wid sid st).now (wkey sid)
      = (none, (complete_workflow wid sid st).cache) :=
    cacheGet_cacheDelete st.cache (st.now + 1) (wkey sid)
  rw [hc']
  dsimp only
  have hfilter : (complete_workflow wid sid st).db.filter (fun r =>
      r.session_id == sid && r.user_id == uid && r.status == "active") = [] := by
    rw [List.filter_eq_nil_iff]
    intro r hr hp
    simp only [Bool.and_eq_true, beq_iff_eq] at hp
    have hcomp : r.status = "completed" := by
      unfold complete_workflow at hr
      simp only [List.mem_map] at hr
      obtain ⟨x, hx, hxr⟩ := hr
      by_cases hxid : x.workflow_id = wid
      · rw [if_pos (by simpa using hxid)] at hxr
        rw [← hxr]
      · rw [if_neg (by simpa using hxid)] at hxr
        exact absurd (h x hx (hxr ▸ hp.1.1) (hxr ▸ hp.1.2) (hxr ▸ hp.2)) hxid
    rw [hcomp] at hp
    exact absurd hp.2 (by decide)
  rw [hfilter]
  rfl

/-- Witness for C6: completing the active cancellation workflow of
`stCancelWaiting` makes a subsequent read return none. -/
theorem complete_then_get_none_witness :
    (get_workflow_state "s2" "user123"
      (complete_workflow "wf-9" "s2" stCancelWaiting)).1 = none ∧
    (∀ e ∈ (complete_workflow "wf-9" "s2" stCancelWaiting).cache,
      e.key ≠ wkey "s2") ∧
    (∀ r ∈ (complete_workflow "wf-9" "s2" stCancelWaiting).db,
      r.workflow_id = "wf-9" → r.status = "completed") :=
  complete_then_get_none stCancelWaiting "wf-9" "s2" "user123" (by decide)

/-! ## C2: informational intent during an active workflow -/

/-- C2 (code bug). With the cancellation workflow of `stCancelWaiting`
active, a `pet_travel` turn that matches no earlier dispatcher rule never
returns the informational answer: the informational branch re-enters
`process_message` with intent, message and state unchanged, so no amount
of fuel suffices (in Python, unbounded recursion ending in
`RecursionError`), and the workflow is never consulted or answered. -/
theorem informational_turn_diverges :
    ∀ fuel : Nat,
      process_message testEnv fuel rPet "user123" "s2" stCancelWaiting = none := by
  intro fuel
  induction fuel with
  | zero => rfl
  | succ n ih =>
    calc process_message testEnv (n + 1) rPet "user123" "s2" stCancelWaiting
        = process_message testEnv n rPet "user123" "s2" stCancelWaiting := rfl
      _ = none := ih

/-! ## C1: at most one active workflow per session -/

/-- C1 (code bug). Two dispatcher turns from an empty session leave two
rows with status `active` for the same `(userId, sessionId)`: the
`cancellation_policy` turn creates a `policy_inquiry` workflow, and the
following `book_flight` turn falls through to `process_book_flight`, whose
new-workflow branch does not complete the foreign active workflow. -/
theorem two_active_workflows_after_turn :
    (process_message testEnv 5 rPolicy "user123" "s1" stEmpty).map
        (fun p => countActive "user123" "s1" p.2.db) = some 1 ∧
    ((process_message testEnv 5 rPolicy "user123" "s1" stEmpty).bind
        (fun p => process_message testEnv 5 rBook "user123" "s1" p.2)).map
        (fun p => countActive "user123" "s1" p.2.db) = some 2 :=
  ⟨rfl, rfl⟩

/-! ## C8: ambiguous task switch asks for disambiguation -/

/-- C8. With an active workflow and a different task-oriented intent
(cancel, check-status, change, upgrade), when the message carries no
booking id and no clear switch language and matches none of the earlier
dispatcher rules, `process_message` returns the disambiguation question
naming both the current and the requested task, and the workflow is left
untouched: nothing is completed and the rows (with their step and
stateData) are exactly the input's — the read can only repopulate the
cache. -/
theorem ambiguous_switch_disambiguates (env : Env) (n : Nat) (r : NluResult)
    (uid sid : String) (st : St) (w : WorkflowView)
    (hirr : anyIn irrelevant_patterns (lowerStr r.original_message) = false)
    (hget : (get_workflow_state sid uid st).1 = some w)
    (hact : w.status = "active")
    (hint : r.intent ∈ (["cancel_booking", "check_status", "change_flight",
      "seat_upgrade"] : List String))
    (hdiff : r.intent ≠ w.workflow_type)
    (hdiff2 : containsSub w.workflow_type (r.intent ++ "_") = false)
    (hsw : anyIn ["switch", "change to", "do", "start"]
      (lowerStr r.original_message) = false)
    (hcont : anyIn ["continue", "yes", "proceed", "go ahead"]
      (lowerStr r.original_message) = false)
    (hrel : relevant_data_check w.workflow_type w.current_step r.entities
      r.original_message = false)
    (hbid : r.entities.booking_id = none)
    (hclear : anyIn clear_switch_phrases (lowerStr r.original_message) = false) :
    process_message env (n + 1) r uid sid st =
      some (⟨"I see you're currently in the middle of a "
          ++ replaceChar '_' ' ' w.workflow_type
          ++ " process. Would you like to:\n• Continue with "
          ++ replaceChar '_' ' ' w.workflow_type ++ "?\n• Switch to "
          ++ replaceChar '_' ' ' r.intent
          ++ "?\n\nJust let me know what you'd prefer!",
        []⟩, (get_workflow_state sid uid st).2) ∧
    ((get_workflow_state sid uid st).2).db = st.db := by
  refine ⟨?_, (get_workflow_state_frame sid uid st).1⟩
  have hint' : r.intent = "cancel_booking" ∨ r.intent = "check_status"
      ∨ r.intent = "change_flight" ∨ r.intent = "seat_upgrade" := by
    simpa using hint
  have hbf : (r.intent == "book_flight") = false := by
    rcases hint' with h | h | h | h <;> simp [h]
  have hcontains4 : (["cancel_booking", "check_status", "change_flight",
      "seat_upgrade"].contains r.intent) = true := by
    rcases hint' with h | h | h | h <;> simp [h]
  have hne : (decide (r.intent ≠ w.workflow_type)) = true :=
    decide_eq_true hdiff
  have hd2 : (!containsSub w.workflow_type (r.intent ++ "_")) = true := by
    rw [hdiff2]
    rfl
  have hs : (w.status == "active") = true := by
    rw [hact]
    rfl
  have hbid' : r.entities.booking_id.isSome = false := by
    rw [hbid]
    rfl
  rcases hg : get_workflow_state sid uid st with ⟨w?, st1⟩
  have hw : w? = some w := by
    have := hget
    rw [hg] at this
    exact this
  subst hw
  unfold process_message handle_irrelevant_query
  rw [hg]
  simp only [hirr, Bool.false_eq_true, if_false, hs, if_true, hbf,
    Bool.false_and, hsw, hcont, hrel, hcontains4, hne, hd2, Bool.and_self,
    Bool.true_and, Bool.and_true, hbid', hclear, Bool.or_self]

/-- Witness for C8: during an active flight-change workflow, the turn
"my seat perhaps" with intent `seat_upgrade` (no booking id, no switch
phrase) gets the disambiguation question and the rows are untouched. -/
theorem ambiguous_switch_disambiguates_witness :
    process_message testEnv 5 ⟨"seat_upgrade", {}, "my seat perhaps"⟩
        "user123" "s6" stChangeWaiting =
      some (⟨"I see you're currently in the middle of a "
          ++ replaceChar '_' ' ' wfChangeWaiting.view.workflow_type
          ++ " process. Would you like to:\n• Continue with "
          ++ replaceChar '_' ' ' wfChangeWaiting.view.workflow_type
          ++ "?\n• Switch to "
          ++ replaceChar '_' ' ' (NluResult.mk "seat_upgrade" {} "my seat perhaps").intent
          ++ "?\n\nJust let me know what you'd prefer!",
        []⟩, (get_workflow_state "s6" "user123" stChangeWaiting).2) ∧
    ((get_workflow_state "s6" "user123" stChangeWaiting).2).db
      = stChangeWaiting.db :=
  ambiguous_switch_disambiguates testEnv 4
    ⟨"seat_upgrade", {}, "my seat perhaps"⟩ "user123" "s6" stChangeWaiting
    wfChangeWaiting.view (by decide) (by decide) rfl (by decide) (by decide)
    (by decide) (by decide) (by decide) (by decide) rfl (by decide)

/-! ## C9: backend failure still completes the workflow -/

/-- C9. At the final step of the cancel, change-flight and upgrade-seat
workflows, a backend result with `success = false` is surfaced as the
conversational "❌" message and the workflow is nevertheless completed (its
row flips to `completed`; no retry state is kept). Stated for an arbitrary
backend `env.api`, the collaborator being specified only at its boundary. -/
theorem backend_failure_completes_workflow :
    (∀ (env : Env) (r : NluResult) (uid sid : String) (st : St) (w : WorkflowView),
      (get_workflow_state sid uid st).1 = some w →
      w.workflow_type = "cancel_booking" →
      w.current_step = "confirm" →
      (containsSub (lowerStr r.original_message) "change"
        || containsSub (lowerStr r.original_message) "modify"
        || containsSub (lowerStr r.original_message) "reschedule") = false →
      (containsSub (lowerStr r.original_message) "policy"
        || containsSub (lowerStr r.original_message) "fee"
        || containsSub (lowerStr r.original_message) "refund"
        || containsSub (lowerStr r.original_message) "cost") = false →
      (containsSub (lowerStr r.original_message) "yes"
        || containsSub (lowerStr r.original_message) "confirm"
        || containsSub (lowerStr r.original_message) "sure"
        || containsSub (lowerStr r.original_message) "proceed") = true →
      (env.api.cancel_booking (sdGetStr w.state_data "booking_id")
        st.bookings).1.success = false →
      process_cancellation env r uid sid st =
        some (⟨"❌ Oops! "
            ++ (env.api.cancel_booking (sdGetStr w.state_data "booking_id")
                st.bookings).1.message
            ++ "\n\nWould you like to try again, or can I help you with something else?",
          []⟩,
          complete_workflow w.workflow_id sid
            { (get_workflow_state sid uid st).2 with
              bookings := (env.api.cancel_booking
                (sdGetStr w.state_data "booking_id") st.bookings).2 }) ∧
      ∀ row ∈ (complete_workflow w.workflow_id sid
          { (get_workflow_state sid uid st).2 with
            bookings := (env.api.cancel_booking
              (sdGetStr w.state_data "booking_id") st.bookings).2 }).db,
        row.workflow_id = w.workflow_id → row.status = "completed") ∧
    (∀ (env : Env) (r : NluResult) (uid sid : String) (st : St)
        (w : WorkflowView) (b : Booking),
      (get_workflow_state sid uid st).1 = some w →
      w.workflow_type = "change_flight" →
      w.current_step = "waiting_for_new_date" →
      truthy r.entities.date = true →
      (validate_date env.today (optStr r.entities.date)).1 = true →
      env.api.get_booking (sdGetStr w.state_data "booking_id") (some uid)
        st.bookings = some b →
      (b.status == "cancelled") = false →
      (env.api.change_flight (sdGetStr w.state_data "booking_id")
        b.flight_number (optStr r.entities.date) st.bookings).1.success = false →
      process_change_flight env r uid sid st =
        some (⟨"❌ "
            ++ (env.api.change_flight (sdGetStr w.state_data "booking_id")
                b.flight_number (optStr r.entities.date) st.bookings).1.message
            ++ "\n\nWould you like to try a different date?",
          []⟩,
          complete_workflow w.workflow_id sid
            { (get_workflow_state sid uid st).2 with
              bookings := (env.api.change_flight
                (sdGetStr w.state_data "booking_id") b.flight_number
                (optStr r.entities.date) st.bookings).2 }) ∧
      ∀ row ∈ (complete_workflow w.workflow_id sid
          { (get_workflow_state sid uid st).2 with
            bookings := (env.api.change_flight
              (sdGetStr w.state_data "booking_id") b.flight_number
              (optStr r.entities.date) st.bookings).2 }).db,
        row.workflow_id = w.workflow_id → row.status = "completed") ∧
    (∀ (env : Env) (r : NluResult) (uid sid : String) (st : St)
        (w : WorkflowView) (seat : String),
      (get_workflow_state sid uid st).1 = some w →
      w.workflow_type = "seat_upgrade" →
      w.current_step = "waiting_for_seat_choice" →
      findSeat (upperStr (lowerStr r.original_message)) = some seat →
      (sdGetSeats w.state_data "available_seats").contains seat = true →
      (env.api.upgrade_seat (sdGetStr w.state_data "booking_id") seat
        st.bookings).1.success = false →
      process_seat_upgrade env r uid sid st =
        some (⟨"❌ "
            ++ (env.api.upgrade_seat (sdGetStr w.state_data "booking_id") seat
                st.bookings).1.message
            ++ "\n\nWould you like to try another seat?",
          []⟩,
          complete_workflow w.workflow_id sid
            { (get_workflow_state sid uid st).2 with
              bookings := (env.api.upgrade_seat
                (sdGetStr w.state_data "booking_id") seat st.bookings).2 }) ∧
      ∀ row ∈ (complete_workflow w.workflow_id sid
          { (get_workflow_state sid uid st).2 with
            bookings := (env.api.upgrade_seat
              (sdGetStr w.state_data "booking_id") seat st.bookings).2 }).db,
        row.workflow_id = w.workflow_id → row.status = "completed") := by
  refine ⟨?_, ?_, ?_⟩
  · intro env r uid sid st w hget htype hstep hc1 hc2 hc3 hfail
    rcases hg : get_workflow_state sid uid st with ⟨w?, st1⟩
    have hw : w? = some w := by
      have h' := hget
      rw [hg] at h'
      exact h'
    subst hw
    have hbk : st1.bookings = st.bookings := by
      have h' := (get_workflow_state_frame sid uid st).2.1
      rw [hg] at h'
      exact h'
    refine ⟨?_, (complete_workflow_db _ _ _).1⟩
    unfold process_cancellation
    rw [hg]
    have hty : ¬ (w.workflow_type ≠ "cancel_booking") := by
      rw [htype]
      simp
    have hs1 : (w.current_step == "waiting_for_id") = false := by
      rw [hstep]
      rfl
    have hs2 : (w.current_step == "confirm") = true := by
      rw [hstep]
      rfl
    simp only [hty, if_false, ite_not, if_true, hs1, Bool.false_eq_true,
      hs2, hc1, hc2, hc3, hbk, hfail]
  · intro env r uid sid st w b hget htype hstep hdate hvalid hbook hbstat hfail
    rcases hg : get_workflow_state sid uid st with ⟨w?, st1⟩
    have hw : w? = some w := by
      have h' := hget
      rw [hg] at h'
      exact h'
    subst hw
    have hbk : st1.bookings = st.bookings := by
      have h' := (get_workflow_state_frame sid uid st).2.1
      rw [hg] at h'
      exact h'
    refine ⟨?_, (complete_workflow_db _ _ _).1⟩
    unfold process_change_flight
    rw [hg]
    have hty : (w.workflow_type ≠ "change_flight" && truthy r.entities.booking_id)
        = false := by
      rw [htype]
      simp
    have hty2 : ¬ (w.workflow_type ≠ "change_flight") := by
      rw [htype]
      simp
    have hs1 : (w.current_step == "waiting_for_id") = false := by
      rw [hstep]
      rfl
    have hs2 : (w.current_step == "waiting_for_new_date") = true := by
      rw [hstep]
      rfl
    have hnv : (!(validate_date env.today (optStr r.entities.date)).1) = false := by
      rw [hvalid]
      rfl
    simp only [hty, Bool.false_eq_true, if_false, hty2, decide_False,
      Bool.false_and, ite_not, if_true, hs1, hs2, hdate, hnv, hbk, hbook,
      hbstat, hfail]
  · intro env r uid sid st w seat hget htype hstep hseat havail hfail
    rcases hg : get_workflow_state sid uid st with ⟨w?, st1⟩
    have hw : w? = some w := by
      have h' := hget
      rw [hg] at h'
      exact h'
    subst hw
    have hbk : st1.bookings = st.bookings := by
      have h' := (get_workflow_state_frame sid uid st).2.1
      rw [hg] at h'
      exact h'
    refine ⟨?_, (complete_workflow_db _ _ _).1⟩
    unfold process_seat_upgrade
    rw [hg]
    have hty : ¬ (w.workflow_type ≠ "seat_upgrade") := by
      rw [htype]
      simp
    have hs1 : ((w.current_step == "waiting_for_id") && truthy r.entities.booking_id)
        = false := by
      rw [hstep]
      rfl
    have hs2 : (w.current_step == "waiting_for_seat_choice") = true := by
      rw [hstep]
      rfl
    have hav : (!(sdGetSeats w.state_data "available_seats").contains seat)
        = false := by
      rw [havail]
      rfl
    simp only [hty, ite_not, if_true, if_false, hs1, Bool.false_eq_true,
      hs2, hseat, hav, hbk, hfail]

/-- Witness for C9: a confirmed cancel of a nonexistent booking, a change
against a backend reporting failure, and an upgrade of a nonexistent
booking each return the "❌" message with the workflow completed. -/
theorem backend_failure_completes_workflow_witness :
    (process_cancellation testEnv ⟨"cancel_booking", {}, "yes"⟩ "u" "s8"
        stCancelConfirmBad =
      some (⟨"❌ Oops! "
          ++ (testEnv.api.cancel_booking
              (sdGetStr wfCancelConfirmBad.view.state_data "booking_id")
              stCancelConfirmBad.bookings).1.message
          ++ "\n\nWould you like to try again, or can I help you with something else?",
        []⟩,
        complete_workflow wfCancelConfirmBad.view.workflow_id "s8"
          { (get_workflow_state "s8" "u" stCancelConfirmBad).2 with
            bookings := (testEnv.api.cancel_booking
              (sdGetStr wfCancelConfirmBad.view.state_data "booking_id")
              stCancelConfirmBad.bookings).2 })) ∧
    (process_change_flight failChangeEnv
        ⟨"change_flight", { date := some "2026-12-25" }, "2026-12-25"⟩
        "user123" "s6" stChangeWaiting =
      some (⟨"❌ "
          ++ (failChangeEnv.api.change_flight
              (sdGetStr wfChangeWaiting.view.state_data "booking_id")
              bk001.flight_number (optStr (some "2026-12-25"))
              stChangeWaiting.bookings).1.message
          ++ "\n\nWould you like to try a different date?",
        []⟩,
        complete_workflow wfChangeWaiting.view.workflow_id "s6"
          { (get_workflow_state "s6" "user123" stChangeWaiting).2 with
            bookings := (failChangeEnv.api.change_flight
              (sdGetStr wfChangeWaiting.view.state_data "booking_id")
              bk001.flight_number (optStr (some "2026-12-25"))
              stChangeWaiting.bookings).2 })) ∧
    (process_seat_upgrade testEnv ⟨"seat_upgrade", {}, "seat 12b please"⟩
        "u" "s9" stUpgradeBad =
      some (⟨"❌ "
          ++ (testEnv.api.upgrade_seat
              (sdGetStr wfUpgradeBad.view.state_data "booking_id") "12B"
              stUpgradeBad.bookings).1.message
          ++ "\n\nWould you like to try another seat?",
        []⟩,
        complete_workflow wfUpgradeBad.view.workflow_id "s9"
          { (get_workflow_state "s9" "u" stUpgradeBad).2 with
            bookings := (testEnv.api.upgrade_seat
              (sdGetStr wfUpgradeBad.view.state_data "booking_id") "12B"
              stUpgradeBad.bookings).2 })) := by
  refine ⟨?_, ?_, ?_⟩
  · exact (backend_failure_completes_workflow.1 testEnv
      ⟨"cancel_booking", {}, "yes"⟩ "u" "s8" stCancelConfirmBad
      wfCancelConfirmBad.view rfl rfl rfl (by decide) (by decide) (by decide)
      (by decide)).1
  · exact (backend_failure_completes_workflow.2.1 failChangeEnv
      ⟨"change_flight", { date := some "2026-12-25" }, "2026-12-25"⟩
      "user123" "s6" stChangeWaiting wfChangeWaiting.view bk001 rfl rfl rfl
      (by decide) (by decide) (by decide) (by decide) (by decide)).1
  · exact (backend_failure_completes_workflow.2.2 testEnv
      ⟨"seat_upgrade", {}, "seat 12b please"⟩ "u" "s9" stUpgradeBad
      wfUpgradeBad.view "12B" rfl rfl rfl (by decide) (by decide)
      (by decide)).1

/-! ## C4: slot accumulation and the create gate -/

/-- C4. In the `book_flight` collecting step (i) each of the four slots is
overwritten by the turn's entity exactly when that entity is present, and
otherwise keeps its prior value, so data supplied across turns merges with
no information loss; and (ii) on every continuation turn that reaches the
slot logic, `create_booking` is invoked — with exactly the merged values —
precisely when all four merged slots are present and pass validation,
otherwise the call list is unchanged. -/
theorem slot_merge_and_create_gate :
    (∀ (e : Entities) (sd : StateData),
      sdGetStr (merge_slot_data e sd) "origin"
        = (if truthy e.origin then e.origin else sdGetStr sd "origin") ∧
      sdGetStr (merge_slot_data e sd) "destination"
        = (if truthy e.destination then e.destination
           else sdGetStr sd "destination") ∧
      sdGetStr (merge_slot_data e sd) "date"
        = (if truthy e.date then e.date else sdGetStr sd "date") ∧
      sdGetStr (merge_slot_data e sd) "passenger_name"
        = (if truthy e.passenger_name then e.passenger_name
           else sdGetStr sd "passenger_name")) ∧
    (∀ (env : Env) (r : NluResult) (uid sid : String) (st : St)
        (w : WorkflowView),
      anyIn question_indicators (lowerStr r.original_message) = false →
      (get_workflow_state sid uid st).1 = some w →
      w.workflow_type = "book_flight" →
      w.current_step = "collecting_details" →
      (process_book_flight env r uid sid st).map (fun p => p.2.createCalls)
        = some (if book_slots_valid env.today
              (merge_slot_data r.entities w.state_data) = true then
            st.createCalls
              ++ [⟨uid, "AA999",
                  optStr (sdGetStr (merge_slot_data r.entities w.state_data)
                    "passenger_name"),
                  optStr (sdGetStr (merge_slot_data r.entities w.state_data)
                    "date"),
                  optStr (sdGetStr (merge_slot_data r.entities w.state_data)
                    "origin"),
                  optStr (sdGetStr (merge_slot_data r.entities w.state_data)
                    "destination"),
                  "TBD"⟩]
          else st.createCalls)) := by
  refine ⟨fun e sd => merge_slot_data_char e sd, ?_⟩
  intro env r uid sid st w hq hget htype hstep
  rcases hg : get_workflow_state sid uid st with ⟨w?, st1⟩
  have hw : w? = some w := by
    have h' := hget
    rw [hg] at h'
    exact h'
  subst hw
  have hcc : st1.createCalls = st.createCalls := by
    have h' := (get_workflow_state_frame sid uid st).2.2.1
    rw [hg] at h'
    exact h'
  have hty : ¬ (w.workflow_type ≠ "book_flight") := by
    rw [htype]
    simp
  unfold process_book_flight
  simp only [hq, Bool.false_and, Bool.false_eq_true, if_false, hg, hty,
    ite_not, if_true]
  by_cases hm : missing_slots (merge_slot_data r.entities w.state_data) = []
  · obtain ⟨ht1, ht2, ht3, ht4⟩ :=
      (missing_slots_eq_nil (merge_slot_data r.entities w.state_data)).mp hm
    rw [if_pos hm]
    by_cases hd : (validate_date env.today
        (optStr (sdGetStr (merge_slot_data r.entities w.state_data)
          "date"))).1 = true
    · have hd' : (!(validate_date env.today
          (optStr (sdGetStr (merge_slot_data r.entities w.state_data)
            "date"))).1) = false := by
        rw [hd]
        rfl
      rw [hd', if_neg (by decide : ¬ (false = true))]
      by_cases hn : (validate_passenger_name
          (optStr (sdGetStr (merge_slot_data r.entities w.state_data)
            "passenger_name"))).1 = true
      · have hn' : (!(validate_passenger_name
            (optStr (sdGetStr (merge_slot_data r.entities w.state_data)
              "passenger_name"))).1) = false := by
          rw [hn]
          rfl
        rw [hn', if_neg (by decide : ¬ (false = true))]
        by_cases ho : (validate_airport_code
            (optStr (sdGetStr (merge_slot_data r.entities w.state_data)
              "origin")) "Departure city").1 = true
        · have ho' : (!(validate_airport_code
              (optStr (sdGetStr (merge_slot_data r.entities w.state_data)
                "origin")) "Departure city").1) = false := by
            rw [ho]
            rfl
          rw [ho', if_neg (by decide : ¬ (false = true))]
          by_cases hde : (validate_airport_code
              (optStr (sdGetStr (merge_slot_data r.entities w.state_data)
                "destination")) "Destination city").1 = true
          · have hde' : (!(validate_airport_code
                (optStr (sdGetStr (merge_slot_data r.entities w.state_data)
                  "destination")) "Destination city").1) = false := by
              rw [hde]
              rfl
            rw [hde', if_neg (by decide : ¬ (false = true))]
            by_cases hsame : (upperStr (optStr (sdGetStr
                  (merge_slot_data r.entities w.state_data) "origin"))
                == upperStr (optStr (sdGetStr
                  (merge_slot_data r.entities w.state_data) "destination")))
                = true
            · rw [if_pos hsame]
              have hv : book_slots_valid env.today
                  (merge_slot_data r.entities w.state_data) = false := by
                unfold book_slots_valid
                rw [ht1, ht2, ht3, ht4, hd, hn, ho, hde, hsame]
                rfl
              rw [hv, ← hcc]
              rfl
            · rw [if_neg (by simpa using hsame)]
              have hv : book_slots_valid env.today
                  (merge_slot_data r.entities w.state_data) = true := by
                unfold book_slots_valid
                rw [ht1, ht2, ht3, ht4, hd, hn, ho, hde,
                  bool_eq_false hsame]
                rfl
              rw [hv, ← hcc]
              by_cases hs : (env.api.create_booking
                  ⟨uid, "AA999",
                    optStr (sdGetStr (merge_slot_data r.entities w.state_data)
                      "passenger_name"),
                    optStr (sdGetStr (merge_slot_data r.entities w.state_data)
                      "date"),
                    optStr (sdGetStr (merge_slot_data r.entities w.state_data)
                      "origin"),
                    optStr (sdGetStr (merge_slot_data r.entities w.state_data)
                      "destination"), "TBD"⟩ st1.bookings).1.success = true
              · simp only [hs, if_true]
                rfl
              · simp only [bool_eq_false hs, if_false]
                rfl
          · have hde' : (!(validate_airport_code
                (optStr (sdGetStr (merge_slot_data r.entities w.state_data)
                  "destination")) "Destination city").1) = true := by
              rw [bool_eq_false hde]
              rfl
            rw [hde', if_pos rfl]
            have hv : book_slots_valid env.today
                (merge_slot_data r.entities w.state_data) = false := by
              unfold book_slots_valid
              rw [ht1, ht2, ht3, ht4, hd, hn, ho,
                bool_eq_false hde]
              rfl
            rw [hv, ← hcc]
            rfl
        · have ho' : (!(validate_airport_code
              (optStr (sdGetStr (merge_slot_data r.entities w.state_data)
                "origin")) "Departure city").1) = true := by
            rw [bool_eq_false ho]
            rfl
          rw [ho', if_pos rfl]
          have hv : book_slots_valid env.today
              (merge_slot_data r.entities w.state_data) = false := by
            unfold book_slots_valid
            rw [ht1, ht2, ht3, ht4, hd, hn, bool_eq_false ho]
            rfl
          rw [hv, ← hcc]
          rfl
      · have hn' : (!(validate_passenger_name
            (optStr (sdGetStr (merge_slot_data r.entities w.state_data)
              "passenger_name"))).1) = true := by
          rw [bool_eq_false hn]
          rfl
        rw [hn', if_pos rfl]
        have hv : book_slots_valid env.today
            (merge_slot_data r.entities w.state_data) = false := by
          unfold book_slots_valid
          rw [ht1, ht2, ht3, ht4, hd, bool_eq_false hn]
          rfl
        rw [hv, ← hcc]
        rfl
    · have hd' : (!(validate_date env.today
          (optStr (sdGetStr (merge_slot_data r.entities w.state_data)
            "date"))).1) = true := by
        rw [bool_eq_false hd]
        rfl
      rw [hd', if_pos rfl]
      have hv : book_slots_valid env.today
          (merge_slot_data r.entities w.state_data) = false := by
        unfold book_slots_valid
        rw [ht1, ht2, ht3, ht4, bool_eq_false hd]
        rfl
      rw [hv, ← hcc]
      rfl
  · rw [if_neg hm]
    have hv : book_slots_valid env.today
        (merge_slot_data r.entities w.state_data) = false := by
      cases hvb : book_slots_valid env.today
          (merge_slot_data r.entities w.state_data)
      · rfl
      · exfalso
        unfold book_slots_valid at hvb
        simp only [Bool.and_eq_true] at hvb
        exact hm ((missing_slots_eq_nil _).mpr
          ⟨hvb.1.1.1.1.1.1.1.1, hvb.1.1.1.1.1.1.1.2,
           hvb.1.1.1.1.1.1.2, hvb.1.1.1.1.1.2⟩)
    rw [hv, ← hcc]
    rfl

/-- Witness for C4: a continuation turn over a workflow that already
holds origin JFK and destination MIA, supplying date 2026-12-25 and
passenger Jane Roe, fires `create_booking` with exactly the merged slot
values; a slotless turn over an empty workflow leaves the call list
unchanged. -/
theorem slot_merge_and_create_gate_witness :
    ((process_book_flight testEnv rBookFinish "u" "s10" stBookPartial).map
        (fun p => p.2.createCalls)
      = some [⟨"u", "AA999", "Jane Roe", "2026-12-25", "JFK", "MIA", "TBD"⟩])
    ∧ ((process_book_flight testEnv rBook "u" "s7" stBook).map
        (fun p => p.2.createCalls) = some []) := by
  constructor
  · have h := slot_merge_and_create_gate.2 testEnv rBookFinish "u" "s10"
      stBookPartial wfBookPartial.view (by decide) rfl rfl rfl
    rw [h]
    rfl
  · have h := slot_merge_and_create_gate.2 testEnv rBook "u" "s7"
      stBook wfBook.view (by decide) rfl rfl rfl
    rw [h]
    rfl

/-! ## C5: validation order, slot clearing, and the missing-slot prompt -/

/-- C5. On a `book_flight` continuation turn that reaches the slot logic:
while slots are missing, the prompt lists the missing items in the fixed
order departure city, destination city, travel date, passenger name (a
sublist of that canonical list); once all four are present, validation
runs in the fixed order date, name, origin, destination, then
origin ≠ destination — each conjunct assumes only that the earlier
validators pass and the named one fails, so the named validator is the
first consulted — and the failing check re-saves the workflow with only
the offending slot(s) nulled (the same-city check nulls both cities) and
re-prompts with the validator's message; every other slot is retained
unchanged, since `sdSet` leaves all other keys untouched. -/
theorem validation_order_and_prompts :
    (∀ (sd : StateData), List.Sublist (missing_slots sd)
      ["departure city", "destination city", "travel date", "passenger name"]) ∧
    (∀ (sd : StateData) (k k' : String), k' ≠ k →
      sdGet (sdSet sd k .null) k' = sdGet sd k') ∧
    (∀ (env : Env) (r : NluResult) (uid sid : String) (st : St)
        (w : WorkflowView),
      anyIn question_indicators (lowerStr r.original_message) = false →
      (get_workflow_state sid uid st).1 = some w →
      w.workflow_type = "book_flight" →
      (missing_slots (merge_slot_data r.entities w.state_data) ≠ [] →
        process_book_flight env r uid sid st
          = some (⟨book_missing_response
                (merge_slot_data r.entities w.state_data)
                (missing_slots (merge_slot_data r.entities w.state_data)), []⟩,
              save_workflow_state w.workflow_id sid uid "book_flight"
                "collecting_details" (merge_slot_data r.entities w.state_data)
                "active" (get_workflow_state sid uid st).2)) ∧
      (missing_slots (merge_slot_data r.entities w.state_data) = [] →
        (validate_date env.today (optStr (sdGetStr
            (merge_slot_data r.entities w.state_data) "date"))).1 = false →
        process_book_flight env r uid sid st
          = some (⟨(validate_date env.today (optStr (sdGetStr
                  (merge_slot_data r.entities w.state_data) "date"))).2
                ++ "\n\nPlease provide a valid date.", []⟩,
              save_workflow_state w.workflow_id sid uid "book_flight"
                "collecting_details"
                (sdSet (merge_slot_data r.entities w.state_data) "date" .null)
                "active" (get_workflow_state sid uid st).2)) ∧
      (missing_slots (merge_slot_data r.entities w.state_data) = [] →
        (validate_date env.today (optStr (sdGetStr
            (merge_slot_data r.entities w.state_data) "date"))).1 = true →
        (validate_passenger_name (optStr (sdGetStr
            (merge_slot_data r.entities w.state_data)
            "passenger_name"))).1 = false →
        process_book_flight env r uid sid st
          = some (⟨(validate_passenger_name (optStr (sdGetStr
                  (merge_slot_data r.entities w.state_data)
                  "passenger_name"))).2
                ++ "\n\nPlease provide a valid passenger name.", []⟩,
              save_workflow_state w.workflow_id sid uid "book_flight"
                "collecting_details"
                (sdSet (merge_slot_data r.entities w.state_data)
                  "passenger_name" .null)
                "active" (get_workflow_state sid uid st).2)) ∧
      (missing_slots (merge_slot_data r.entities w.state_data) = [] →
        (validate_date env.today (optStr (sdGetStr
            (merge_slot_data r.entities w.state_data) "date"))).1 = true →
        (validate_passenger_name (optStr (sdGetStr
            (merge_slot_data r.entities w.state_data)
            "passenger_name"))).1 = true →
        (validate_airport_code (optStr (sdGetStr
            (merge_slot_data r.entities w.state_data) "origin"))
            "Departure city").1 = false →
        process_book_flight env r uid sid st
          = some (⟨(validate_airport_code (optStr (sdGetStr
                  (merge_slot_data r.entities w.state_data) "origin"))
                  "Departure city").2
                ++ "\n\nPlease provide a valid departure city.", []⟩,
              save_workflow_state w.workflow_id sid uid "book_flight"
                "collecting_details"
                (sdSet (merge_slot_data r.entities w.state_data)
                  "origin" .null)
                "active" (get_workflow_state sid uid st).2)) ∧
      (missing_slots (merge_slot_data r.entities w.state_data) = [] →
        (validate_date env.today (optStr (sdGetStr
            (merge_slot_data r.entities w.state_data) "date"))).1 = true →
        (validate_passenger_name (optStr (sdGetStr
            (merge_slot_data r.entities w.state_data)
            "passenger_name"))).1 = true →
        (validate_airport_code (optStr (sdGetStr
            (merge_slot_data r.entities w.state_data) "origin"))
            "Departure city").1 = true →
        (validate_airport_code (optStr (sdGetStr
            (merge_slot_data r.entities w.state_data) "destination"))
            "Destination city").1 = false →
        process_book_flight env r uid sid st
          = some (⟨(validate_airport_code (optStr (sdGetStr
                  (merge_slot_data r.entities w.state_data) "destination"))
                  "Destination city").2
                ++ "\n\nPlease provide a valid destination city.", []⟩,
              save_workflow_state w.workflow_id sid uid "book_flight"
                "collecting_details"
                (sdSet (merge_slot_data r.entities w.state_data)
                  "destination" .null)
                "active" (get_workflow_state sid uid st).2)) ∧
      (missing_slots (merge_slot_data r.entities w.state_data) = [] →
        (validate_date env.today (optStr (sdGetStr
            (merge_slot_data r.entities w.state_data) "date"))).1 = true →
        (validate_passenger_name (optStr (sdGetStr
            (merge_slot_data r.entities w.state_data)
            "passenger_name"))).1 = true →
        (validate_airport_code (optStr (sdGetStr
            (merge_slot_data r.entities w.state_data) "origin"))
            "Departure city").1 = true →
        (validate_airport_code (optStr (sdGetStr
            (merge_slot_data r.entities w.state_data) "destination"))
            "Destination city").1 = true →
        (upperStr (optStr (sdGetStr
            (merge_slot_data r.entities w.state_data) "origin"))
          == upperStr (optStr (sdGetStr
            (merge_slot_data r.entities w.state_data) "destination"))) = true →
        process_book_flight env r uid sid st
          = some (⟨"⚠️ Origin and destination cannot be the same!\n\nYou selected "
                ++ optStr (sdGetStr
                    (merge_slot_data r.entities w.state_data) "origin")
                ++ " for both. Please provide different departure and destination cities.",
                []⟩,
              save_workflow_state w.workflow_id sid uid "book_flight"
                "collecting_details"
                (sdSet (sdSet (merge_slot_data r.entities w.state_data)
                  "origin" .null) "destination" .null)
                "active" (get_workflow_state sid uid st).2))) := by
  refine ⟨missing_slots_sublist, fun sd k k' h => sdGet_sdSet_other sd k k' .null h, ?_⟩
  intro env r uid sid st w hq hget htype
  rcases hg : get_workflow_state sid uid st with ⟨w?, st1⟩
  have hw : w? = some w := by
    have h' := hget
    rw [hg] at h'
    exact h'
  subst hw
  have hty : ¬ (w.workflow_type ≠ "book_flight") := by
    rw [htype]
    simp
  refine ⟨?_, ?_, ?_, ?_, ?_, ?_⟩
  · intro hm
    unfold process_book_flight
    simp only [hq, Bool.false_and, Bool.false_eq_true, if_false, hg, hty,
      ite_not, if_true]
    rw [if_neg hm]
  · intro hm hdf
    unfold process_book_flight
    simp only [hq, Bool.false_and, Bool.false_eq_true, if_false, hg, hty,
      ite_not, if_true]
    rw [if_pos hm]
    have hd' : (!(validate_date env.today
        (optStr (sdGetStr (merge_slot_data r.entities w.state_data)
          "date"))).1) = true := by
      rw [hdf]
      rfl
    rw [hd', if_pos rfl]
  · intro hm hd hnf
    unfold process_book_flight
    simp only [hq, Bool.false_and, Bool.false_eq_true, if_false, hg, hty,
      ite_not, if_true]
    rw [if_pos hm]
    have hd' : (!(validate_date env.today
        (optStr (sdGetStr (merge_slot_data r.entities w.state_data)
          "date"))).1) = false := by
      rw [hd]
      rfl
    rw [hd', if_neg (by decide : ¬ (false = true))]
    have hn' : (!(validate_passenger_name
        (optStr (sdGetStr (merge_slot_data r.entities w.state_data)
          "passenger_name"))).1) = true := by
      rw [hnf]
      rfl
    rw [hn', if_pos rfl]
  · intro hm hd hn hof
    unfold process_book_flight
    simp only [hq, Bool.false_and, Bool.false_eq_true, if_false, hg, hty,
      ite_not, if_true]
    rw [if_pos hm]
    have hd' : (!(validate_date env.today
        (optStr (sdGetStr (merge_slot_data r.entities w.state_data)
          "date"))).1) = false := by
      rw [hd]
      rfl
    rw [hd', if_neg (by decide : ¬ (false = true))]
    have hn' : (!(validate_passenger_name
        (optStr (sdGetStr (merge_slot_data r.entities w.state_data)
          "passenger_name"))).1) = false := by
      rw [hn]
      rfl
    rw [hn', if_neg (by decide : ¬ (false = true))]
    have ho' : (!(validate_airport_code
        (optStr (sdGetStr (merge_slot_data r.entities w.state_data)
          "origin")) "Departure city").1) = true := by
      rw [hof]
      rfl
    rw [ho', if_pos rfl]
  · intro hm hd hn ho hdf
    unfold process_book_flight
    simp only [hq, Bool.false_and, Bool.false_eq_true, if_false, hg, hty,
      ite_not, if_true]
    rw [if_pos hm]
    have hd' : (!(validate_date env.today
        (optStr (sdGetStr (merge_slot_data r.entities w.state_data)
          "date"))).1) = false := by
      rw [hd]
      rfl
    rw [hd', if_neg (by decide : ¬ (false = true))]
    have hn' : (!(validate_passenger_name
        (optStr (sdGetStr (merge_slot_data r.entities w.state_data)
          "passenger_name"))).1) = false := by
      rw [hn]
      rfl
    rw [hn', if_neg (by decide : ¬ (false = true))]
    have ho' : (!(validate_airport_code
        (optStr (sdGetStr (merge_slot_data r.entities w.state_data)
          "origin")) "Departure city").1) = false := by
      rw [ho]
      rfl
    rw [ho', if_neg (by decide : ¬ (false = true))]
    have hde' : (!(validate_airport_code
        (optStr (sdGetStr (merge_slot_data r.entities w.state_data)
          "destination")) "Destination city").1) = true := by
      rw [hdf]
      rfl
    rw [hde', if_pos rfl]
  · intro hm hd hn ho hde hsame
    unfold process_book_flight
    simp only [hq, Bool.false_and, Bool.false_eq_true, if_false, hg, hty,
      ite_not, if_true]
    rw [if_pos hm]
    have hd' : (!(validate_date env.today
        (optStr (sdGetStr (merge_slot_data r.entities w.state_data)
          "date"))).1) = false := by
      rw [hd]
      rfl
    rw [hd', if_neg (by decide : ¬ (false = true))]
    have hn' : (!(validate_passenger_name
        (optStr (sdGetStr (merge_slot_data r.entities w.state_data)
          "passenger_name"))).1) = false := by
      rw [hn]
      rfl
    rw [hn', if_neg (by decide : ¬ (false = true))]
    have ho' : (!(validate_airport_code
        (optStr (sdGetStr (merge_slot_data r.entities w.state_data)
          "origin")) "Departure city").1) = false := by
      rw [ho]
      rfl
    rw [ho', if_neg (by decide : ¬ (false = true))]
    have hde' : (!(validate_airport_code
        (optStr (sdGetStr (merge_slot_data r.entities w.state_data)
          "destination")) "Destination city").1) = false := by
      rw [hde]
      rfl
    rw [hde', if_neg (by decide : ¬ (false = true))]
    rw [if_pos hsame]

/-- Witness for C5: with origin JFK and destination MIA already on file,
a turn supplying passenger Jane Roe and the past date 2020-01-01 gets the
date validator's message, and the re-saved workflow row has the date slot
cleared while JFK, MIA and Jane Roe are retained; a slotless opening turn
is prompted for all four items in the fixed order. -/
theorem validation_order_and_prompts_witness :
    ((process_book_flight testEnv rBadDate "u" "s10" stBookPartial).map
        (fun p => p.1.response)
      = some ((validate_date testEnv.today "2020-01-01").2
          ++ "\n\nPlease provide a valid date.")) ∧
    ((process_book_flight testEnv rBadDate "u" "s10" stBookPartial).map
        (fun p => p.2.db.map (fun row =>
          (valTruthy (sdGet row.state_data "date"),
           sdGetStr row.state_data "origin",
           sdGetStr row.state_data "destination",
           sdGetStr row.state_data "passenger_name")))
      = some [(false, some "JFK", some "MIA", some "Jane Roe")]) ∧
    ((process_book_flight testEnv rBook "u" "s7" stBook).map
        (fun p => p.1.response)
      = some (book_missing_response []
          ["departure city", "destination city", "travel date",
           "passenger name"])) := by
  have h := ((validation_order_and_prompts.2.2 testEnv rBadDate "u" "s10"
      stBookPartial wfBookPartial.view (by decide) rfl rfl).2.1
      (by decide) (by decide))
  have h2 := ((validation_order_and_prompts.2.2 testEnv rBook "u" "s7"
      stBook wfBook.view (by decide) rfl rfl).1 (by decide))
  refine ⟨?_, ?_, ?_⟩
  · rw [h]
    rfl
  · rw [h]
    rfl
  · rw [h2]
    rfl

end AirlineBot
